import Mathlib

/-! # ComposeNativeTray, Linux tray agent (`linuxlibnew`)

A shallow embedding of the Go sources `systray.go`, `systray_unix.go` and
`jna/bridge_linux.go`, followed by the properties proved about them.

Conventions of the embedding

* `uint32` values are `Nat` with an explicit `% 2 ^ 32` at every addition;
  `int64` values are `Int`, and an `int64` subtraction wraps into
  `[-2 ^ 63, 2 ^ 63)`.
* A `*MenuItem` is an address into `heap`, the list of every `MenuItem`
  object allocated so far (address = position); `nil` is `none`.
* The Go map `menuItems` is an association list from id to address.
* Function values are kept as data (which closure it is); calling one appends
  to a list of calls instead of running host code.
* A Go panic is the `none` of an `Option`, or the flag `panicked` of a result.
* What `nativeStart`, `nativeEnd` and `Quit` do is kept as a list of events (the
  ready signal, calls that reach the host, calls into the D-Bus library), in the
  order of the statements; the scheduling of workers is not part of the embedding.
-/

namespace Systray

/-! ## Machine integers -/

/-- The function `atomic.AddUint32(&v, delta)`: the new value, modulo `2 ^ 32`. -/
def addUint32 (v delta : Nat) : Nat := (v + delta) % 2 ^ 32

/-- Reduction of an integer to the `int64` that has the same low 64 bits. -/
def wrap64 (z : Int) : Int := (z + 2 ^ 63) % 2 ^ 64 - 2 ^ 63

/-- The Go expression `a - b` on `int64` operands. -/
def subInt64 (a b : Int) : Int := wrap64 (a - b)

/-- Membership in the range of `int64`. -/
def isInt64 (z : Int) : Prop := -(2 ^ 63) ≤ z ∧ z < 2 ^ 63

instance (z : Int) : Decidable (isInt64 z) := by
  unfold isInt64; infer_instance

/-! ## Data model of `systray.go` -/

/-- The struct `MenuItem`. `click` is the stored `func()` (which one), `parent`
the address of the parent item. -/
structure MenuItem where
  click : Option Nat
  id : Nat
  title : String
  tooltip : String
  shortcutKey : String
  disabled : Bool
  checked : Bool
  isCheckable : Bool
  parent : Option Nat
deriving DecidableEq, Repr

/-- Reading `menuItems[id]`: the address stored under `id`, if any. The method
`update` is the only writer of the map and stores the pointer of an item, so no
entry holds `nil`. -/
def lookup : List (Nat × Nat) → Nat → Option Nat
  | [], _ => none
  | (k, v) :: rest, id => if k = id then some v else lookup rest id

/-- The assignment `menuItems[id] = a`: replaces the entry of `id` when there
is one, adds an entry otherwise. -/
def insert : List (Nat × Nat) → Nat → Nat → List (Nat × Nat)
  | [], id, a => [(id, a)]
  | (k, v) :: rest, id, a => if k = id then (k, a) :: rest else (k, v) :: insert rest id a

/-- The package-level variables of `systray.go` that the menu operations use,
with the object heap and the state `L` of the D-Bus menu layout, which is
owned by the platform half of the menu. -/
structure Menu (L : Type) where
  heap : List MenuItem
  menuItems : List (Nat × Nat)
  currentID : Nat
  layout : L
deriving DecidableEq, Repr

/-- Modelled from the spec: the platform half of the menu. `systray.go` calls
`addOrUpdateMenuItem`, `addSeparator`, `hideMenuItem`, `showMenuItem`, `resetMenu`
and `MenuItem.SetIcon`, whose bodies are in a file that is not among the sources.
The specification describes them as publishing to the dbusmenu layout (the tree,
`menuVersion`, the `LayoutUpdated` and `ItemsPropertiesUpdated` signals). They are
parameters here, any functions at all: each receives what the Go function receives
(the heap stands for the target of the item pointer) and acts on the layout state
`L`; it does not write to the items, the registry or the id counter. -/
structure Platform (L : Type) where
  addOrUpdateMenuItem : List MenuItem → Nat → L → L
  addSeparator : Nat → L → L
  hideMenuItem : List MenuItem → Nat → L → L
  showMenuItem : List MenuItem → Nat → L → L
  resetMenu : L → L
  setItemIcon : List MenuItem → Nat → List Nat → L → L

/-- The state at program start: `menuItems = make(map)`, `currentID = 0`. -/
def Menu.init {L : Type} (l : L) : Menu L :=
  { heap := [], menuItems := [], currentID := 0, layout := l }

section MenuOps

variable {L : Type} (P : Platform L)

/-- The function `newMenuItem`: takes the next id from the counter and
allocates the item. Returns the new state and the address of the item. -/
def newMenuItem (title tooltip : String) (parent : Option Nat) (m : Menu L) : Menu L × Nat :=
  let id := addUint32 m.currentID 1
  let item : MenuItem :=
    { click := none, id := id, title := title, tooltip := tooltip, shortcutKey := "",
      disabled := false, checked := false, isCheckable := false, parent := parent }
  ({ m with currentID := id, heap := m.heap ++ [item] }, m.heap.length)

/-- Assignment to the fields of the item at address `a`. The `none` branch stands
for an address at which nothing was allocated, which no Go pointer is. -/
def modifyItem (a : Nat) (f : MenuItem → MenuItem) (m : Menu L) : Menu L :=
  match m.heap[a]? with
  | some item => { m with heap := m.heap.set a (f item) }
  | none => m

/-- The method `update`: `menuItems[item.id] = item`, then `addOrUpdateMenuItem(item)`. -/
def update (a : Nat) (m : Menu L) : Menu L :=
  match m.heap[a]? with
  | some item =>
    { m with menuItems := insert m.menuItems item.id a,
             layout := P.addOrUpdateMenuItem m.heap a m.layout }
  | none => m

/-- The method `ID`; `none` at an address at which nothing was allocated. -/
def ID (m : Menu L) (a : Nat) : Option Nat := (m.heap[a]?).map (·.id)

/-- The function `AddMenuItem`. -/
def AddMenuItem (title tooltip : String) (m : Menu L) : Menu L × Nat :=
  let (m1, item) := newMenuItem title tooltip none m
  (update P item m1, item)

/-- The function `AddMenuItemCheckbox`. -/
def AddMenuItemCheckbox (title tooltip : String) (checked : Bool) (m : Menu L) : Menu L × Nat :=
  let (m1, item) := newMenuItem title tooltip none m
  let m2 := modifyItem item (fun i => { i with isCheckable := true }) m1
  let m3 := modifyItem item (fun i => { i with checked := checked }) m2
  (update P item m3, item)

/-- The function `AddSeparator`. -/
def AddSeparator (m : Menu L) : Menu L :=
  let id := addUint32 m.currentID 1
  { m with currentID := id, layout := P.addSeparator id m.layout }

/-- The method `AddSubMenuItem` of the item at address `item`. -/
def AddSubMenuItem (item : Nat) (title tooltip : String) (m : Menu L) : Menu L × Nat :=
  let (m1, child) := newMenuItem title tooltip (some item) m
  (update P child m1, child)

/-- The method `AddSubMenuItemCheckbox` of the item at address `item`. -/
def AddSubMenuItemCheckbox (item : Nat) (title tooltip : String) (checked : Bool)
    (m : Menu L) : Menu L × Nat :=
  let (m1, child) := newMenuItem title tooltip (some item) m
  let m2 := modifyItem child (fun i => { i with isCheckable := true }) m1
  let m3 := modifyItem child (fun i => { i with checked := checked }) m2
  (update P child m3, child)

/-- The methods `SetTitle`, `SetTooltip`, `Enable`, `Disable`, `Check`, `Uncheck`. -/
def SetTitle (item : Nat) (title : String) (m : Menu L) : Menu L :=
  update P item (modifyItem item (fun i => { i with title := title }) m)

def SetTooltip (item : Nat) (tooltip : String) (m : Menu L) : Menu L :=
  update P item (modifyItem item (fun i => { i with tooltip := tooltip }) m)

def Enable (item : Nat) (m : Menu L) : Menu L :=
  update P item (modifyItem item (fun i => { i with disabled := false }) m)

def Disable (item : Nat) (m : Menu L) : Menu L :=
  update P item (modifyItem item (fun i => { i with disabled := true }) m)

def Check (item : Nat) (m : Menu L) : Menu L :=
  update P item (modifyItem item (fun i => { i with checked := true }) m)

def Uncheck (item : Nat) (m : Menu L) : Menu L :=
  update P item (modifyItem item (fun i => { i with checked := false }) m)

/-- The methods `Hide` and `Show`, and `SetIcon` of the platform half. -/
def Hide (item : Nat) (m : Menu L) : Menu L :=
  { m with layout := P.hideMenuItem m.heap item m.layout }

def Show (item : Nat) (m : Menu L) : Menu L :=
  { m with layout := P.showMenuItem m.heap item m.layout }

def MenuItemSetIcon (item : Nat) (iconBytes : List Nat) (m : Menu L) : Menu L :=
  { m with layout := P.setItemIcon m.heap item iconBytes m.layout }

/-- The function `ResetMenu`. -/
def ResetMenu (m : Menu L) : Menu L :=
  { m with layout := P.resetMenu m.layout }

/-- The item-creating operations, as the caller writes them. -/
inductive AddOp where
  | addMenuItem (title tooltip : String)
  | addMenuItemCheckbox (title tooltip : String) (checked : Bool)
  | addSubMenuItem (item : Nat) (title tooltip : String)
  | addSubMenuItemCheckbox (item : Nat) (title tooltip : String) (checked : Bool)
  | addSeparator
deriving DecidableEq, Repr

/-- One item-creating operation. -/
def AddOp.run : AddOp → Menu L → Menu L
  | .addMenuItem t tt, m => (AddMenuItem P t tt m).1
  | .addMenuItemCheckbox t tt c, m => (AddMenuItemCheckbox P t tt c m).1
  | .addSubMenuItem i t tt, m => (AddSubMenuItem P i t tt m).1
  | .addSubMenuItemCheckbox i t tt c, m => (AddSubMenuItemCheckbox P i t tt c m).1
  | .addSeparator, m => AddSeparator P m

/-- The id an item-creating operation allocates: the `ID()` of the item it
returns, and for `AddSeparator` the value it hands to `addSeparator`. -/
def AddOp.allocated : AddOp → Menu L → Option Nat
  | .addMenuItem t tt, m => let r := AddMenuItem P t tt m; ID r.1 r.2
  | .addMenuItemCheckbox t tt c, m => let r := AddMenuItemCheckbox P t tt c m; ID r.1 r.2
  | .addSubMenuItem i t tt, m => let r := AddSubMenuItem P i t tt m; ID r.1 r.2
  | .addSubMenuItemCheckbox i t tt c, m =>
    let r := AddSubMenuItemCheckbox P i t tt c m; ID r.1 r.2
  | .addSeparator, m => some (addUint32 m.currentID 1)

/-- The ids allocated by a sequence of item-creating operations, in allocation order. -/
def allocatedIds : List AddOp → Menu L → List (Option Nat)
  | [], _ => []
  | op :: ops, m => op.allocated P m :: allocatedIds ops (op.run P m)

end MenuOps

/-! ## Click arbiter (`systray_unix.go`) -/

/-- A `func(menu IMenu)` value: one supplied by the caller of the library, or
one of the two closures the bridge builds, `func(menu) { C.call_void(cbOnClick) }`
and `func(menu) { C.call_void(cbOnRClick) }`. -/
inductive MenuFn where
  | host (n : Nat)
  | callOnClick
  | callOnRClick
deriving DecidableEq, Repr

/-- A `func(x, y int32)` value held in a field of `usni`: some function value, or
the closure `func(int32, int32) { fn(nil) }` that `setOnClick` and `setOnDClick` build. -/
inductive XYFn where
  | host (n : Nat)
  | callMenuFn (fn : MenuFn)
deriving DecidableEq, Repr

/-- The struct `UnimplementedStatusNotifierItem`; a `nil` handler is `none`. -/
structure USNI where
  contextMenu : Option XYFn
  activate : Option XYFn
  dActivate : Option XYFn
  secondaryActivate : Option XYFn
  scroll : Option Nat
  dActivateTime : Int
deriving DecidableEq, Repr

/-- The variables the SNI methods work on: `usni`, `lastClickX`, `lastClickY`
and `dClickTimeMinInterval`. -/
structure Clicks where
  usni : USNI
  lastClickX : Int
  lastClickY : Int
  dClickTimeMinInterval : Int
deriving DecidableEq, Repr

/-- The state at program start: `usni = &UnimplementedStatusNotifierItem{}`,
coordinates zero, `dClickTimeMinInterval = 500`. -/
def Clicks.init : Clicks :=
  { usni := { contextMenu := none, activate := none, dActivate := none,
              secondaryActivate := none, scroll := none, dActivateTime := 0 }
    lastClickX := 0, lastClickY := 0, dClickTimeMinInterval := 500 }

/-- A call of a handler, named after the field of `usni` it was read from, with
the arguments passed. -/
inductive Call where
  | contextMenu (f : XYFn) (x y : Int)
  | activate (f : XYFn) (x y : Int)
  | dActivate (f : XYFn) (x y : Int)
  | secondaryActivate (f : XYFn) (x y : Int)
  | scroll (f : Nat) (delta : Int) (orientation : String)
deriving DecidableEq, Repr

/-- The `*dbus.Error` results the SNI methods return. -/
inductive DBusError where
  | unknownMethod
deriving DecidableEq, Repr

/-- What one SNI method call did: the handler calls it made and the error it returned. -/
structure Reply where
  calls : List Call
  err : Option DBusError
deriving DecidableEq, Repr

/-- The function `SetDClickTimeMinInterval`. -/
def SetDClickTimeMinInterval (value : Int) (c : Clicks) : Clicks :=
  { c with dClickTimeMinInterval := value }

/-- The functions `setOnClick`, `setOnDClick`, `setOnRClick`. -/
def setOnClick (fn : MenuFn) (c : Clicks) : Clicks :=
  { c with usni := { c.usni with activate := some (.callMenuFn fn) } }

def setOnDClick (fn : MenuFn) (c : Clicks) : Clicks :=
  { c with usni := { c.usni with dActivate := some (.callMenuFn fn) } }

def setOnRClick (_dClick : MenuFn) (c : Clicks) : Clicks := c

/-- The function `GetLastClickXY`. -/
def GetLastClickXY (c : Clicks) : Int × Int := (c.lastClickX, c.lastClickY)

/-- The method `ContextMenu`. -/
def ContextMenu (x y : Int) (c : Clicks) : Clicks × Reply :=
  let c := { c with lastClickX := x, lastClickY := y }
  match c.usni.contextMenu with
  | some f => (c, { calls := [.contextMenu f x y], err := none })
  | none => (c, { calls := [], err := some .unknownMethod })

/-- The last statement of `Activate`: call `m.activate` when it is set. -/
def activateTail (x y : Int) (c : Clicks) : Clicks × Reply :=
  match c.usni.activate with
  | some f => (c, { calls := [.activate f x y], err := none })
  | none => (c, { calls := [], err := some .unknownMethod })

/-- The method `Activate`; `now` is the value `time.Now().UnixMilli()` has in this call. -/
def Activate (now : Int) (x y : Int) (c : Clicks) : Clicks × Reply :=
  let c := { c with lastClickX := x, lastClickY := y }
  if c.usni.dActivateTime = 0 then
    activateTail x y { c with usni := { c.usni with dActivateTime := now } }
  else
    let nowMilli := now
    if subInt64 nowMilli c.usni.dActivateTime < c.dClickTimeMinInterval then
      let c := { c with usni := { c.usni with dActivateTime := c.dClickTimeMinInterval } }
      match c.usni.dActivate with
      | some f => (c, { calls := [.dActivate f x y], err := none })
      | none => activateTail x y c
    else
      activateTail x y { c with usni := { c.usni with dActivateTime := nowMilli } }

/-- The method `SecondaryActivate`. -/
def SecondaryActivate (x y : Int) (c : Clicks) : Clicks × Reply :=
  let c := { c with lastClickX := x, lastClickY := y }
  match c.usni.secondaryActivate with
  | some f => (c, { calls := [.secondaryActivate f x y], err := none })
  | none => (c, { calls := [], err := some .unknownMethod })

/-- The method `Scroll`. -/
def Scroll (delta : Int) (orientation : String) (c : Clicks) : Clicks × Reply :=
  match c.usni.scroll with
  | some f => (c, { calls := [.scroll f delta orientation], err := none })
  | none => (c, { calls := [], err := some .unknownMethod })

/-! ## Pixmap builder (`systray_unix.go`) -/

/-- The type `image.Rectangle`. -/
structure Rectangle where
  minX : Int
  minY : Int
  maxX : Int
  maxY : Int
deriving DecidableEq, Repr

/-- The methods `Dx` and `Dy` of `image.Rectangle`. -/
def Rectangle.Dx (r : Rectangle) : Int := r.maxX - r.minX

def Rectangle.Dy (r : Rectangle) : Int := r.maxY - r.minY

/-- The function `image.Rect`: the rectangle with the coordinates put in order. -/
def Rect (x0 y0 x1 y1 : Int) : Rectangle :=
  { minX := if x0 > x1 then x1 else x0
    minY := if y0 > y1 then y1 else y0
    maxX := if x0 > x1 then x0 else x1
    maxY := if y0 > y1 then y0 else y1 }

/-- The type `image.RGBA`: the bytes `Pix` (four per pixel, in the order R, G, B, A),
the distance `Stride` between two rows, and the bounds `Rect`. -/
structure RGBA where
  Pix : List Nat
  Stride : Int
  Rect : Rectangle
deriving DecidableEq, Repr

/-- The method `PixOffset` of `image.RGBA`. -/
def RGBA.PixOffset (p : RGBA) (x y : Int) : Int :=
  (y - p.Rect.minY) * p.Stride + (x - p.Rect.minX) * 4

/-- The function `image.NewRGBA`: a zeroed image with `Stride = 4 * Dx`. -/
def NewRGBA (r : Rectangle) : RGBA :=
  { Pix := List.replicate (4 * r.Dx * r.Dy).toNat 0, Stride := 4 * r.Dx, Rect := r }

/-- The Go expression `make([]byte, n)`; it panics on a negative length. Lengths
and offsets are unbounded integers here: those of a slice that exists fit in `int`. -/
def makeBytes (n : Int) : Option (List Nat) :=
  if 0 ≤ n then some (List.replicate n.toNat 0) else none

/-- The Go slice expression `s[lo:hi]`; it panics unless `0 ≤ lo ≤ hi ≤ cap(s)`.
The capacity is taken to be the length. -/
def slice (s : List Nat) (lo hi : Int) : Option (List Nat) :=
  if 0 ≤ lo ∧ lo ≤ hi ∧ hi ≤ s.length then
    some ((s.drop lo.toNat).take (hi - lo).toNat)
  else none

/-- The Go assignment `buf[i] = v`; it panics when `i` is out of range. -/
def store (buf : List Nat) (i : Nat) (v : Nat) : Option (List Nat) :=
  if i < buf.length then some (buf.set i v) else none

/-- Body of the inner loop of `toARGB32BigEndian` for column `x`: the state is
the buffer and the write position `i`. -/
def pixelStep (row : List Nat) (st : List Nat × Nat) (x : Nat) : Option (List Nat × Nat) := do
  let r ← row[x * 4 + 0]?
  let g ← row[x * 4 + 1]?
  let b ← row[x * 4 + 2]?
  let a ← row[x * 4 + 3]?
  let buf ← store st.1 (st.2 + 0) a
  let buf ← store buf (st.2 + 1) r
  let buf ← store buf (st.2 + 2) g
  let buf ← store buf (st.2 + 3) b
  pure (buf, st.2 + 4)

/-- Body of the outer loop of `toARGB32BigEndian` for row `y`. -/
def rowStep (img : RGBA) (w : Int) (st : List Nat × Nat) (y : Nat) : Option (List Nat × Nat) := do
  let off := img.PixOffset 0 y
  let row ← slice img.Pix off (off + w * 4)
  (List.range w.toNat).foldlM (pixelStep row) st

/-- The function `toARGB32BigEndian`. A loop `for v := 0; v < n; v++` runs over
`List.range n.toNat`. -/
def toARGB32BigEndian (img : RGBA) : Option (List Nat) := do
  let w := img.Rect.Dx
  let h := img.Rect.Dy
  let buf ← makeBytes (w * h * 4)
  let st ← (List.range h.toNat).foldlM (rowStep img w) (buf, 0)
  pure st.1

/-- The method `RGBAAt` of `image.RGBA`: the samples (R, G, B, A) of the pixel at `(x, y)`. -/
def RGBA.RGBAAt (p : RGBA) (x y : Int) : Option (Nat × Nat × Nat × Nat) :=
  if p.Rect.minX ≤ x ∧ x < p.Rect.maxX ∧ p.Rect.minY ≤ y ∧ y < p.Rect.maxY then do
    let i := p.PixOffset x y
    let s ← slice p.Pix i (i + 4)
    pure (← s[0]?, ← s[1]?, ← s[2]?, ← s[3]?)
  else some (0, 0, 0, 0)

/-- The struct `PX`. -/
structure PX where
  W : Int
  H : Int
  Pix : List Nat
deriving DecidableEq, Repr

/-- The image library, outside the sources at hand: `decode` is `image.Decode`
(`none` when it returns an error) and `scale src dst` is the destination image
after `draw.CatmullRom.Scale(dst, dst.Bounds(), src, src.Bounds(), draw.Over, nil)`. -/
structure Codec (Img : Type) where
  decode : List Nat → Option Img
  scale : Img → RGBA → RGBA

/-- The resampler writes pixels of the destination and leaves its geometry alone. -/
def Codec.KeepsShape {Img : Type} (C : Codec Img) : Prop :=
  ∀ src dst, (C.scale src dst).Rect = dst.Rect ∧ (C.scale src dst).Stride = dst.Stride ∧
    (C.scale src dst).Pix.length = dst.Pix.length

/-- The function `resizeTo`. -/
def resizeTo {Img : Type} (C : Codec Img) (src : Img) (w h : Int) : RGBA :=
  let dst := NewRGBA (Rect 0 0 w h)
  C.scale src dst

/-- The slice `targets` of `buildPixmaps`. -/
def targets : List Int := [16, 22, 24, 32, 48, 64, 128]

/-- Body of the loop of `buildPixmaps` for the size `s`. -/
def pixmapStep {Img : Type} (C : Codec Img) (img : Img) (out : List PX) (s : Int) :
    Option (List PX) := do
  let pm := resizeTo C img s s
  let pix ← toARGB32BigEndian pm
  pure (out ++ [{ W := s, H := s, Pix := pix }])

/-- The function `buildPixmaps`; the `nil` it returns is the empty list. -/
def buildPixmaps {Img : Type} (C : Codec Img) (data : List Nat) : Option (List PX) :=
  if data.length = 0 then some []
  else
    match C.decode data with
    | none => some []
    | some img => targets.foldlM (pixmapStep C img) []

/-! ## The path advertised when there is no menu (`systray_unix.go`) -/

/-- The function `strings.ToLower` on a string of valid UTF-8: letters `A` to `Z` go
to `a` to `z`, other ASCII characters stay, and `u` is the standard library's
`unicode.ToLower` on the characters outside ASCII. -/
def ToLower (u : Char → Char) (s : String) : String :=
  ⟨s.data.map fun c => if c.val < 128 then c.toLower else u c⟩

/-- The function `strings.Contains` on lists of characters. -/
def containsChars : List Char → List Char → Bool
  | [], sub => sub.isEmpty
  | c :: rest, sub => sub.isPrefixOf (c :: rest) || containsChars rest sub

/-- The function `strings.Contains`. -/
def Contains (s substr : String) : Bool := containsChars s.data substr.data

/-- The function `os.Getenv` in the environment `env`: the value of the variable,
and the empty string when the variable is not set. -/
def Getenv (env : String → Option String) (key : String) : String := (env key).getD ""

/-- The function `noMenuPathForEnvironment`. -/
def noMenuPathForEnvironment (u : Char → Char) (env : String → Option String) : String :=
  let xdg := ToLower u (Getenv env "XDG_CURRENT_DESKTOP")
  let sess := ToLower u (Getenv env "DESKTOP_SESSION")
  let kdeFull := Getenv env "KDE_FULL_SESSION" != ""
  if Contains xdg "kde" || Contains xdg "plasma" ||
      Contains sess "kde" || Contains sess "plasma" || kdeFull then
    "/NO_DBUSMENU"
  else "/"

/-- An environment given by the values of the three variables read. -/
def envOf (xdg sess kde : Option String) : String → Option String := fun key =>
  if key = "XDG_CURRENT_DESKTOP" then xdg
  else if key = "DESKTOP_SESSION" then sess
  else if key = "KDE_FULL_SESSION" then kde
  else none

/-- The value, put in lower case, contains the word: the word occurs in the value
case-insensitively. -/
def mentions (u : Char → Char) (value word : String) : Prop :=
  word.data <:+: (ToLower u value).data

/-- The detection of KDE/Plasma in the words of the specification, with "set" read
as set to a non-empty value: `XDG_CURRENT_DESKTOP` or `DESKTOP_SESSION` contains
`kde` or `plasma` case-insensitively, or `KDE_FULL_SESSION` has a non-empty value. -/
def DetectsKDE (u : Char → Char) (env : String → Option String) : Prop :=
  mentions u (Getenv env "XDG_CURRENT_DESKTOP") "kde" ∨
  mentions u (Getenv env "XDG_CURRENT_DESKTOP") "plasma" ∨
  mentions u (Getenv env "DESKTOP_SESSION") "kde" ∨
  mentions u (Getenv env "DESKTOP_SESSION") "plasma" ∨
  ∃ v, env "KDE_FULL_SESSION" = some v ∧ v ≠ ""


/-! ## Access to menu items by id (`systray.go`) -/

section ByID

variable {L : Type} (P : Platform L)

/-- The function `getMenuItem`. -/
def getMenuItem (m : Menu L) (id : Nat) : Option Nat := lookup m.menuItems id

/-- The function `AddSubMenuItemByID`. The result is the new id, or 0. -/
def AddSubMenuItemByID (parentID : Nat) (title tooltip : String) (m : Menu L) : Menu L × Nat :=
  match getMenuItem m parentID with
  | none => (m, 0)
  | some parent =>
    let r := AddSubMenuItem P parent title tooltip m
    (r.1, (ID r.1 r.2).getD 0)

/-- The function `AddSubMenuItemCheckboxByID`. -/
def AddSubMenuItemCheckboxByID (parentID : Nat) (title tooltip : String) (checked : Bool)
    (m : Menu L) : Menu L × Nat :=
  match getMenuItem m parentID with
  | none => (m, 0)
  | some parent =>
    let r := AddSubMenuItemCheckbox P parent title tooltip checked m
    (r.1, (ID r.1 r.2).getD 0)

/-- The function `SetMenuItemTitleByID`. -/
def SetMenuItemTitleByID (id : Nat) (title : String) (m : Menu L) : Menu L × Bool :=
  match getMenuItem m id with
  | some item => (SetTitle P item title m, true)
  | none => (m, false)

/-- The function `EnableMenuItemByID`. -/
def EnableMenuItemByID (id : Nat) (m : Menu L) : Menu L × Bool :=
  match getMenuItem m id with
  | some item => (Enable P item m, true)
  | none => (m, false)

/-- The function `DisableMenuItemByID`. -/
def DisableMenuItemByID (id : Nat) (m : Menu L) : Menu L × Bool :=
  match getMenuItem m id with
  | some item => (Disable P item m, true)
  | none => (m, false)

/-- The function `ShowMenuItemByID`. -/
def ShowMenuItemByID (id : Nat) (m : Menu L) : Menu L × Bool :=
  match getMenuItem m id with
  | some item => (Show P item m, true)
  | none => (m, false)

/-- The function `HideMenuItemByID`. -/
def HideMenuItemByID (id : Nat) (m : Menu L) : Menu L × Bool :=
  match getMenuItem m id with
  | some item => (Hide P item m, true)
  | none => (m, false)

/-- The function `CheckMenuItemByID`. -/
def CheckMenuItemByID (id : Nat) (m : Menu L) : Menu L × Bool :=
  match getMenuItem m id with
  | some item => (Check P item m, true)
  | none => (m, false)

/-- The function `UncheckMenuItemByID`. -/
def UncheckMenuItemByID (id : Nat) (m : Menu L) : Menu L × Bool :=
  match getMenuItem m id with
  | some item => (Uncheck P item m, true)
  | none => (m, false)

/-- The function `SetMenuItemIconByID`. -/
def SetMenuItemIconByID (id : Nat) (iconBytes : List Nat) (m : Menu L) : Menu L × Bool :=
  match getMenuItem m id with
  | some item => (MenuItemSetIcon P item iconBytes m, true)
  | none => (m, false)

end ByID

/-- The contract of an operation that changes an item found by id: the result `r`
(new state, found or not) of the operation on `m` with the id `id`, where `g` is the
change of the item. The operation reports true exactly when the id is in the
registry; on false nothing has changed; on true the item registered under the id has
become `g` of itself, every other item is as before, and so is the id counter. -/
def ByIDContract {L : Type} (m : Menu L) (id : Nat) (g : MenuItem → MenuItem)
    (r : Menu L × Bool) : Prop :=
  (r.2 = true ↔ ∃ a, lookup m.menuItems id = some a) ∧
  (r.2 = false → r.1 = m) ∧
  (∀ a it, lookup m.menuItems id = some a → m.heap[a]? = some it →
    r.2 = true ∧ r.1.heap = m.heap.set a (g it) ∧ r.1.heap[a]? = some (g it) ∧
    (∀ j, j ≠ a → r.1.heap[j]? = m.heap[j]?) ∧ r.1.currentID = m.currentID)

/-- Every address in the registry is the address of an allocated item, and the item
is registered under its own id. -/
def Menu.WF {L : Type} (m : Menu L) : Prop :=
  ∀ id a, lookup m.menuItems id = some a → ∃ it, m.heap[a]? = some it ∧ it.id = id

/-! ## Tray state and the bus (`systray_unix.go`) -/

/-- The fields of the struct `tray` that `systray_unix.go` reads and writes; `conn`,
`props` and `menuProps` are handles (`none` is `nil`), a `nil` byte slice is `[]`. -/
structure Tray where
  conn : Option Nat
  name : String
  iconData : List Nat
  title : String
  tooltipTitle : String
  props : Option Nat
  menuProps : Option Nat
deriving DecidableEq, Repr

/-- The variable `instance` at program start. -/
def Tray.init : Tray :=
  { conn := none, name := "", iconData := [], title := "", tooltipTitle := "",
    props := none, menuProps := none }

/-- The calls into the D-Bus library made by `SetIcon`, `SetTitle` and `SetTooltip`. -/
inductive BusOp where
  | setMustIconPixmap (pixmaps : List PX)
  | setMustToolTip (title : String) (pixmaps : List PX)
  | setTitle (t : String)
  | emitNewIcon
  | emitNewTitle
deriving DecidableEq, Repr

/-- The D-Bus library, outside the sources at hand: `setTitle t` tells whether
`props.Set("org.kde.StatusNotifierItem", "Title", t)` returns without error. -/
structure DBusLib where
  setTitle : String → Bool

/-- A `func(id uint32)` value: one supplied by the caller of the library, or the
closure of the bridge, `func(id) { C.call_menu_item(cbOnMenuSel, C.uint(id)) }`. -/
inductive SelFn where
  | host (n : Nat)
  | callMenuSel
deriving DecidableEq, Repr

/-- The whole state: the variables of `systray.go` and `systray_unix.go`, the list
`bus` of the bus calls made so far, and the variables of the bridge (`running` and
the five C function pointers, `none` for `NULL`). -/
structure World (L : Type) where
  menu : Menu L
  clicks : Clicks
  menuItemSelected : Option SelFn
  tray : Tray
  bus : List BusOp
  running : Bool
  cbReady : Option Nat
  cbExit : Option Nat
  cbOnClick : Option Nat
  cbOnRClick : Option Nat
  cbOnMenuSel : Option Nat
deriving DecidableEq, Repr

/-- The state at program start. -/
def World.init {L : Type} (l : L) : World L :=
  { menu := Menu.init l, clicks := Clicks.init, menuItemSelected := none, tray := Tray.init,
    bus := [], running := false, cbReady := none, cbExit := none, cbOnClick := none,
    cbOnRClick := none, cbOnMenuSel := none }

/-- The state a call leaves, and whether the call ended in a panic. -/
structure Ran (σ : Type) where
  state : σ
  panicked : Bool

section TrayOps

variable {L Img : Type} (C : Codec Img) (D : DBusLib)

/-- The function `SetIcon`. An error of `notifier.Emit` is only logged. -/
def SetIcon (iconBytes : List Nat) (w : World L) : Ran (World L) :=
  let w := { w with tray := { w.tray with iconData := iconBytes } }
  let props := w.tray.props
  let conn := w.tray.conn
  match props with
  | none => ⟨w, false⟩
  | some _ =>
    match buildPixmaps C iconBytes with
    | none => ⟨w, true⟩
    | some pixmaps =>
      let w := { w with bus := w.bus ++ [BusOp.setMustIconPixmap pixmaps] }
      let w := { w with bus := w.bus ++ [BusOp.setMustToolTip w.tray.tooltipTitle pixmaps] }
      match conn with
      | none => ⟨w, false⟩
      | some _ => ⟨{ w with bus := w.bus ++ [BusOp.emitNewIcon] }, false⟩

/-- The function `SetTitle` of the tray. -/
def SetTrayTitle (t : String) (w : World L) : World L :=
  let w := { w with tray := { w.tray with title := t } }
  let props := w.tray.props
  let conn := w.tray.conn
  match props with
  | none => w
  | some _ =>
    let w := { w with bus := w.bus ++ [BusOp.setTitle t] }
    if !D.setTitle t then w
    else
      match conn with
      | none => w
      | some _ => { w with bus := w.bus ++ [BusOp.emitNewTitle] }

/-- The function `SetTooltip` of the tray. -/
def SetTrayTooltip (tooltipTitle : String) (w : World L) : Ran (World L) :=
  let w := { w with tray := { w.tray with tooltipTitle := tooltipTitle } }
  let props := w.tray.props
  let iconData := w.tray.iconData
  match props with
  | none => ⟨w, false⟩
  | some _ =>
    match buildPixmaps C iconData with
    | none => ⟨w, true⟩
    | some pixmaps => ⟨{ w with bus := w.bus ++ [BusOp.setMustToolTip tooltipTitle pixmaps] }, false⟩

end TrayOps

/-! ## The exported entry points (`jna/bridge_linux.go`)

A `*C.char` string argument is an `Option String` (`none` for `NULL`); a pointer
to bytes is the `Option` of the bytes readable there, of which `C.GoBytes` copies
the first `length`. The deferred `recover()` of an entry point turns a panic of
the library call into a normal return, with the state the call left. -/

section Bridge

variable {L Img : Type} (P : Platform L) (C : Codec Img) (D : DBusLib)

/-- The Go statements `var t string; if p != nil { t = C.GoString(p) }`. -/
def goStringOr (p : Option String) : String :=
  match p with
  | some str => str
  | none => ""

/-- The entry point `Systray_InitCallbacks`. -/
def Systray_InitCallbacks (ready exit onClick onRClick onMenuItem : Option Nat)
    (w : World L) : World L :=
  let w := { w with cbReady := ready, cbExit := exit, cbOnClick := onClick,
                    cbOnRClick := onRClick, cbOnMenuSel := onMenuItem }
  let w := { w with clicks := setOnClick MenuFn.callOnClick w.clicks }
  let w := { w with clicks := setOnRClick MenuFn.callOnRClick w.clicks }
  let w := { w with clicks := setOnDClick MenuFn.callOnClick w.clicks }
  { w with menuItemSelected := some SelFn.callMenuSel }

/-- The entry point `Systray_SetIcon`. -/
def Systray_SetIcon (iconBytes : Option (List Nat)) (length : Int) (w : World L) : World L :=
  if !w.running then w
  else
    match iconBytes with
    | none => w
    | some mem =>
      if length ≤ 0 then w
      else
        let b := mem.take length.toNat
        (SetIcon C b w).state

/-- The entry point `Systray_SetTitle`. -/
def Systray_SetTitle (title : Option String) (w : World L) : World L :=
  if !w.running then w
  else
    match title with
    | none => w
    | some t => SetTrayTitle D t w

/-- The entry point `Systray_SetTooltip`. -/
def Systray_SetTooltip (tooltip : Option String) (w : World L) : World L :=
  if !w.running then w
  else
    match tooltip with
    | none => w
    | some t => (SetTrayTooltip C t w).state

/-- The entry point `Systray_AddMenuItem`. The item is the one just allocated, so
`item.ID()` is defined. -/
def Systray_AddMenuItem (title tooltip : Option String) (w : World L) : World L × Nat :=
  let t := goStringOr title
  let tt := goStringOr tooltip
  let r := AddMenuItem P t tt w.menu
  ({ w with menu := r.1 }, (ID r.1 r.2).getD 0)

/-- The entry point `Systray_AddMenuItemCheckbox`. -/
def Systray_AddMenuItemCheckbox (title tooltip : Option String) (checked : Int)
    (w : World L) : World L × Nat :=
  if !w.running then (w, 0)
  else
    let t := goStringOr title
    let tt := goStringOr tooltip
    let r := AddMenuItemCheckbox P t tt (checked != 0) w.menu
    ({ w with menu := r.1 }, (ID r.1 r.2).getD 0)

/-- The entry point `Systray_AddSeparator`. -/
def Systray_AddSeparator (w : World L) : World L :=
  if !w.running then w
  else { w with menu := AddSeparator P w.menu }

/-- The entry point `Systray_ResetMenu`. -/
def Systray_ResetMenu (w : World L) : World L :=
  if !w.running then w
  else { w with menu := ResetMenu P w.menu }

/-- The entry point `Systray_AddSubMenuItem`. -/
def Systray_AddSubMenuItem (parentID : Nat) (title tooltip : Option String)
    (w : World L) : World L × Nat :=
  if !w.running then (w, 0)
  else
    let t := goStringOr title
    let tt := goStringOr tooltip
    let r := AddSubMenuItemByID P parentID t tt w.menu
    ({ w with menu := r.1 }, r.2)

/-- The entry point `Systray_AddSubMenuItemCheckbox`. -/
def Systray_AddSubMenuItemCheckbox (parentID : Nat) (title tooltip : Option String)
    (checked : Int) (w : World L) : World L × Nat :=
  if !w.running then (w, 0)
  else
    let t := goStringOr title
    let tt := goStringOr tooltip
    let r := AddSubMenuItemCheckboxByID P parentID t tt (checked != 0) w.menu
    ({ w with menu := r.1 }, r.2)

/-- The entry point `Systray_MenuItem_SetTitle`. -/
def Systray_MenuItem_SetTitle (id : Nat) (title : Option String) (w : World L) : World L × Int :=
  if !w.running then (w, 0)
  else
    match title with
    | none => (w, 0)
    | some t =>
      let r := SetMenuItemTitleByID P id t w.menu
      if r.2 then ({ w with menu := r.1 }, 1) else ({ w with menu := r.1 }, 0)

/-- The entry point `Systray_MenuItem_Enable`. -/
def Systray_MenuItem_Enable (id : Nat) (w : World L) : World L :=
  if !w.running then w
  else { w with menu := (EnableMenuItemByID P id w.menu).1 }

/-- The entry point `Systray_MenuItem_Disable`. -/
def Systray_MenuItem_Disable (id : Nat) (w : World L) : World L :=
  if !w.running then w
  else { w with menu := (DisableMenuItemByID P id w.menu).1 }

/-- The entry point `Systray_MenuItem_Show`. -/
def Systray_MenuItem_Show (id : Nat) (w : World L) : World L :=
  if !w.running then w
  else { w with menu := (ShowMenuItemByID P id w.menu).1 }

/-- The entry point `Systray_MenuItem_Hide`. -/
def Systray_MenuItem_Hide (id : Nat) (w : World L) : World L :=
  if !w.running then w
  else { w with menu := (HideMenuItemByID P id w.menu).1 }

/-- The entry point `Systray_MenuItem_Check`. -/
def Systray_MenuItem_Check (id : Nat) (w : World L) : World L :=
  if !w.running then w
  else { w with menu := (CheckMenuItemByID P id w.menu).1 }

/-- The entry point `Systray_MenuItem_Uncheck`. -/
def Systray_MenuItem_Uncheck (id : Nat) (w : World L) : World L :=
  if !w.running then w
  else { w with menu := (UncheckMenuItemByID P id w.menu).1 }

/-- The entry point `Systray_SetMenuItemIcon`. -/
def Systray_SetMenuItemIcon (iconBytes : Option (List Nat)) (length : Int) (id : Nat)
    (w : World L) : World L :=
  if !w.running then w
  else
    match iconBytes with
    | none => w
    | some mem =>
      if length ≤ 0 then w
      else
        let b := mem.take length.toNat
        { w with menu := (SetMenuItemIconByID P id b w.menu).1 }

end Bridge

/-! ## Selection of a menu item (`systray.go`) -/

section Selection

variable {L : Type}

/-- The method `Click`: stores the function value `fn` (`none` for `nil`) in the item. -/
def Click (item : Nat) (fn : Option Nat) (m : Menu L) : Menu L :=
  modifyItem item (fun i => { i with click := fn }) m

/-- The function `SetOnMenuItemSelected`. -/
def SetOnMenuItemSelected (fn : Option SelFn) (w : World L) : World L :=
  { w with menuItemSelected := fn }

/-- A call made by `systrayMenuItemSelected`: of the `click` function of an item, or
of `menuItemSelected` with an id. -/
inductive SelCall where
  | click (fn : Nat)
  | menuItemSelected (fn : SelFn) (id : Nat)
deriving DecidableEq, Repr

/-- The function `systrayMenuItemSelected`: the calls it makes, in order. It writes
to no variable, and on an id that is not in the map it logs and returns. -/
def systrayMenuItemSelected (id : Nat) (w : World L) : List SelCall :=
  match lookup w.menu.menuItems id with
  | none => []
  | some a =>
    match w.menu.heap[a]? with
    | none => []
    | some item =>
      (match item.click with
        | some fn => [SelCall.click fn]
        | none => []) ++
      (match w.menuItemSelected with
        | some fn => [SelCall.menuItemSelected fn id]
        | none => [])

end Selection

/-! ## What reaches the host -/

/-- A call that leaves the library: of a C function pointer, through `call_void` or
`call_menu_item` of the bridge, or of a Go function value that the caller of the
library supplied. -/
inductive HostCall where
  | cVoid (f : Nat)
  | cMenuItem (f : Nat) (id : Nat)
  | goMenuFn (n : Nat)
  | goXYFn (n : Nat) (x y : Int)
  | goScrollFn (n : Nat) (delta : Int) (orientation : String)
  | goFunc (n : Nat)
deriving DecidableEq, Repr

/-- The C helper `call_void`: `if (f) { f(); }`. -/
def call_void (f : Option Nat) : List HostCall :=
  match f with
  | some g => [HostCall.cVoid g]
  | none => []

/-- The C helper `call_menu_item`: `if (f) { f(id); }`. -/
def call_menu_item (f : Option Nat) (id : Nat) : List HostCall :=
  match f with
  | some g => [HostCall.cMenuItem g id]
  | none => []

section HostCalls

variable {L : Type}

/-- Running a `func(menu IMenu)` value with `nil`: the closures of the bridge read the
variables `cbOnClick` and `cbOnRClick` when they run. -/
def runMenuFn (w : World L) : MenuFn → List HostCall
  | .host n => [HostCall.goMenuFn n]
  | .callOnClick => call_void w.cbOnClick
  | .callOnRClick => call_void w.cbOnRClick

/-- Running a `func(x, y int32)` value. -/
def runXYFn (w : World L) : XYFn → Int → Int → List HostCall
  | .host n, x, y => [HostCall.goXYFn n x y]
  | .callMenuFn fn, _, _ => runMenuFn w fn

/-- What a handler call of an SNI method does at the host. -/
def runCall (w : World L) : Call → List HostCall
  | .contextMenu f x y => runXYFn w f x y
  | .activate f x y => runXYFn w f x y
  | .dActivate f x y => runXYFn w f x y
  | .secondaryActivate f x y => runXYFn w f x y
  | .scroll f delta orientation => [HostCall.goScrollFn f delta orientation]

end HostCalls

/-- A sequence of `Activate` calls, each with its clock value and coordinates: the
state after them and the reply of each. -/
def activateSeq : List (Int × Int × Int) → Clicks → Clicks × List Reply
  | [], c => (c, [])
  | (now, x, y) :: rest, c =>
    let r := Activate now x y c
    let rs := activateSeq rest r.1
    (rs.1, r.2 :: rs.2)

/-! ## The operations on the menu, as steps -/

/-- The methods of `MenuItem` that change an item or its place in the layout. -/
inductive Mutation where
  | setTitle (title : String)
  | setTooltip (tooltip : String)
  | enable
  | disable
  | hideItem
  | showItem
  | check
  | uncheck
  | setIcon (iconBytes : List Nat)
  | click (fn : Option Nat)
deriving DecidableEq, Repr

/-- One operation of the library on the menu: an item-creating operation, a method
called on the item at an address, or one of the functions that take an id. -/
inductive Step where
  | create (op : AddOp)
  | addSubMenuItemByID (parentID : Nat) (title tooltip : String)
  | addSubMenuItemCheckboxByID (parentID : Nat) (title tooltip : String) (checked : Bool)
  | method (item : Nat) (mu : Mutation)
  | setMenuItemTitleByID (id : Nat) (title : String)
  | enableMenuItemByID (id : Nat)
  | disableMenuItemByID (id : Nat)
  | showMenuItemByID (id : Nat)
  | hideMenuItemByID (id : Nat)
  | checkMenuItemByID (id : Nat)
  | uncheckMenuItemByID (id : Nat)
  | setMenuItemIconByID (id : Nat) (iconBytes : List Nat)
  | resetMenu
deriving DecidableEq, Repr

section Steps

variable {L : Type} (P : Platform L)

/-- The method `mu` called on the item at address `item`. -/
def Mutation.run : Mutation → Nat → Menu L → Menu L
  | .setTitle t, item, m => SetTitle P item t m
  | .setTooltip t, item, m => SetTooltip P item t m
  | .enable, item, m => Enable P item m
  | .disable, item, m => Disable P item m
  | .hideItem, item, m => Hide P item m
  | .showItem, item, m => Show P item m
  | .check, item, m => Check P item m
  | .uncheck, item, m => Uncheck P item m
  | .setIcon b, item, m => MenuItemSetIcon P item b m
  | .click fn, item, m => Click item fn m

/-- The state after one operation. -/
def Step.run : Step → Menu L → Menu L
  | .create op, m => op.run P m
  | .addSubMenuItemByID pid t tt, m => (AddSubMenuItemByID P pid t tt m).1
  | .addSubMenuItemCheckboxByID pid t tt c, m => (AddSubMenuItemCheckboxByID P pid t tt c m).1
  | .method item mu, m => mu.run P item m
  | .setMenuItemTitleByID id t, m => (SetMenuItemTitleByID P id t m).1
  | .enableMenuItemByID id, m => (EnableMenuItemByID P id m).1
  | .disableMenuItemByID id, m => (DisableMenuItemByID P id m).1
  | .showMenuItemByID id, m => (ShowMenuItemByID P id m).1
  | .hideMenuItemByID id, m => (HideMenuItemByID P id m).1
  | .checkMenuItemByID id, m => (CheckMenuItemByID P id m).1
  | .uncheckMenuItemByID id, m => (UncheckMenuItemByID P id m).1
  | .setMenuItemIconByID id b, m => (SetMenuItemIconByID P id b m).1
  | .resetMenu, m => ResetMenu P m

/-- The receiver of a method is a pointer to an item that was allocated: the
operations return such pointers and nothing else in the library makes one. -/
def Step.receiverLive : Step → Menu L → Bool
  | .create (.addSubMenuItem item _ _), m => decide (item < m.heap.length)
  | .create (.addSubMenuItemCheckbox item _ _ _), m => decide (item < m.heap.length)
  | .method item _, m => decide (item < m.heap.length)
  | _, _ => true

/-- The states reached from the state at program start by the operations. -/
inductive Reachable : Menu L → Prop where
  | init (l : L) : Reachable (Menu.init l)
  | step {m : Menu L} (st : Step) (hm : Reachable m) (hlive : st.receiverLive m = true) :
      Reachable (st.run P m)

end Steps

/-- The address reached from `a` by following the parent link `k` times; `none` when
the links end before. -/
def climb (heap : List MenuItem) : Nat → Nat → Option Nat
  | 0, a => some a
  | k + 1, a =>
    match heap[a]? with
    | some item =>
      match item.parent with
      | some p => climb heap k p
      | none => none
    | none => none

/-- Every parent link points at an item allocated earlier. -/
def Menu.ParentsOlder {L : Type} (m : Menu L) : Prop :=
  ∀ (a : Nat) (item : MenuItem), m.heap[a]? = some item →
    ∀ p, item.parent = some p → p < a

/-! ## Start and end of the tray (`systray.go`, `systray_unix.go`, `jna/bridge_linux.go`) -/

/-- A `func()` value passed as `onReady`: one of the caller of the library, or the
closure of the bridge, `func() { running = true; C.call_void(cbReady) }`. -/
inductive ReadyFn where
  | host (n : Nat)
  | bridgeReady
deriving DecidableEq, Repr

/-- A `func()` value held in `systrayExit`: one of the caller of the library, the
closure of the bridge, `func() { running = false; C.call_void(cbExit) }`, or the
`func() {}` that `Register` puts in the place of `nil`. -/
inductive ExitFn where
  | host (n : Nat)
  | bridgeExit
  | noop
deriving DecidableEq, Repr

/-- The values of the properties handed to `prop.Export` for the item, as
`createPropSpec` computes them (the constant ones left out). -/
structure PropSpec where
  title : String
  iconPixmap : List PX
  menu : String
  toolTipTitle : String
  toolTipIcons : List PX
deriving DecidableEq, Repr

/-- The calls into the D-Bus library made by `nativeStart` and `nativeEnd`. -/
inductive BusCall where
  | connectSessionBus
  | exportStatusNotifierItem
  | exportDbusmenu
  | requestName (name : String)
  | propExportItem (spec : PropSpec)
  | propExportMenu
  | exportIntrospectable (path : String)
  | registerStatusNotifierItem
  | setMustStatusPassive
  | unexportStatusNotifierItem
  | unexportDbusmenu
  | exportNil (path iface : String)
  | releaseName (name : String)
  | connClose
deriving DecidableEq, Repr

/-- What a call does that can be seen from outside, in order: the closing of the
channel `readyCh` on which the worker that runs `onReady` waits, a call that reaches
the host, a call into the D-Bus library, the closing of `quitChan`. -/
inductive Ev where
  | closeReadyCh (onReady : ReadyFn)
  | host (c : HostCall)
  | bus (c : BusCall)
  | closeQuitChan
deriving DecidableEq, Repr

/-- The event is a call into the D-Bus library. -/
def Ev.isBus : Ev → Bool
  | .bus _ => true
  | _ => false

/-- The event is a call that reaches the host. -/
def Ev.isHost : Ev → Bool
  | .host _ => true
  | _ => false

/-- The event is the ready signal. -/
def Ev.isReady : Ev → Bool
  | .closeReadyCh _ => true
  | _ => false

/-- The surroundings of the process, outside the sources: the process id, the
environment, `unicode.ToLower`, and the answers of the D-Bus library during
`nativeStart`. `connect` is the connection `dbus.ConnectSessionBus()` returns (`none`
for `nil`, when there is no session bus); `propExportItem` and `propExportMenu` are
the handles the two `prop.Export` calls return (`none` for an error);
`introspectItem` and `introspectMenu` tell whether the two `conn.Export` calls of the
introspection data return without error. -/
structure Session where
  pid : Nat
  env : String → Option String
  toLower : Char → Char
  connect : Option Nat
  propExportItem : Option Nat
  propExportMenu : Option Nat
  introspectItem : Bool
  introspectMenu : Bool

/-- The constants `path` and `menuPath`. -/
def path : String := "/StatusNotifierItem"

def menuPath : String := "/StatusNotifierMenu"

/-- The whole state with the variables of the life cycle: `systrayReady` (when not
`nil`, the closure of `Register` that sets `systrayReady = nil` and closes `readyCh`;
kept as the `onReady` it releases), `systrayExit`, whether `quitChan` is closed, and
whether the variables `startFn` and `endFn` of the bridge are set. -/
structure Life (L : Type) where
  world : World L
  systrayReady : Option ReadyFn
  systrayExit : Option ExitFn
  quitClosed : Bool
  startFn : Bool
  endFn : Bool
deriving DecidableEq, Repr

/-- The state at program start. -/
def Life.init {L : Type} (l : L) : Life L :=
  { world := World.init l, systrayReady := none, systrayExit := none, quitClosed := false,
    startFn := false, endFn := false }

/-- The result of a call: the state it leaves, what it did, and whether it ended
in a panic that goes on to its caller. -/
structure Done (σ : Type) where
  state : σ
  events : List Ev
  panicked : Bool
deriving DecidableEq, Repr

/-- One call after another; a panic of the first ends the sequence. -/
def Done.andThen {σ : Type} (d : Done σ) (f : σ → Done σ) : Done σ :=
  if d.panicked then d
  else
    let d2 := f d.state
    { state := d2.state, events := d.events ++ d2.events, panicked := d2.panicked }

section LifeCycle

variable {L Img : Type} (C : Codec Img) (S : Session)

/-- What the worker started by `Register` does once `readyCh` is closed: it runs
`onReady`. The body of a function of the caller is not known; the closure of the
bridge sets `running`. -/
def runReadyFn (fn : ReadyFn) (w : World L) : World L × List HostCall :=
  match fn with
  | .host n => (w, [HostCall.goFunc n])
  | .bridgeReady => ({ w with running := true }, call_void w.cbReady)

/-- Running the function held in `systrayExit`. -/
def runExitFn (fn : ExitFn) (w : World L) : World L × List HostCall :=
  match fn with
  | .host n => (w, [HostCall.goFunc n])
  | .bridgeExit => ({ w with running := false }, call_void w.cbExit)
  | .noop => (w, [])

/-- The function `Register` (`registerSystray` is empty). -/
def Register (onReady : Option ReadyFn) (onExit : Option ExitFn) (s : Life L) : Life L :=
  { s with systrayReady := onReady,
           systrayExit := match onExit with
             | some fn => some fn
             | none => some ExitFn.noop }

/-- The function `Quit`: `quitOnce.Do(quit)`. -/
def Quit (s : Life L) : Done (Life L) :=
  if s.quitClosed then { state := s, events := [], panicked := false }
  else { state := { s with quitClosed := true }, events := [Ev.closeQuitChan], panicked := false }

/-- The method `createPropSpec`; it panics when `buildPixmaps` does. -/
def createPropSpec (t : Tray) : Option PropSpec :=
  match buildPixmaps C t.iconData with
  | none => none
  | some pixmaps =>
    some { title := t.title, iconPixmap := pixmaps,
           menu := noMenuPathForEnvironment S.toLower S.env,
           toolTipTitle := t.tooltipTitle, toolTipIcons := pixmaps }

/-- The function `nativeStart`. Errors that the code only logs have no effect here.
A method called on the `nil` connection panics. -/
def nativeStart (s : Life L) : Done (Life L) :=
  let ev0 : List Ev :=
    match s.systrayReady with
    | some onReady => [Ev.closeReadyCh onReady]
    | none => []
  let s : Life L := { s with systrayReady := none }
  let ev1 := ev0 ++ [Ev.bus BusCall.connectSessionBus]
  match S.connect with
  | none => { state := s, events := ev1, panicked := true }
  | some conn =>
    let pid := S.pid
    let name := s!"org.kde.StatusNotifierItem-{pid}-1"
    let ev2 := ev1 ++ [Ev.bus BusCall.exportStatusNotifierItem, Ev.bus BusCall.exportDbusmenu,
      Ev.bus (BusCall.requestName name)]
    let s : Life L := { s with world := { s.world with tray := { s.world.tray with name := name } } }
    match createPropSpec C S s.world.tray with
    | none => { state := s, events := ev2, panicked := true }
    | some spec =>
      let ev3 := ev2 ++ [Ev.bus (BusCall.propExportItem spec)]
      match S.propExportItem with
      | none => { state := s, events := ev3, panicked := false }
      | some props =>
        let ev4 := ev3 ++ [Ev.bus BusCall.propExportMenu]
        match S.propExportMenu with
        | none => { state := s, events := ev4, panicked := false }
        | some menuProps =>
          let ev5 := ev4 ++ [Ev.bus (BusCall.exportIntrospectable path)]
          if !S.introspectItem then { state := s, events := ev5, panicked := false }
          else
            let ev6 := ev5 ++ [Ev.bus (BusCall.exportIntrospectable menuPath)]
            if !S.introspectMenu then { state := s, events := ev6, panicked := false }
            else
              let s : Life L :=
                { s with world := { s.world with tray :=
                    { s.world.tray with conn := some conn, props := some props,
                                        menuProps := some menuProps } } }
              { state := s, events := ev6 ++ [Ev.bus BusCall.registerStatusNotifierItem],
                panicked := false }

/-- The function `nativeEnd`. The call of a `nil` `systrayExit` panics. The
connection is closed on a worker, for which the call waits at most 300 ms; the
event is the start of that. -/
def nativeEnd (s : Life L) : Done (Life L) :=
  match s.systrayExit with
  | none => { state := s, events := [], panicked := true }
  | some fn =>
    let r := runExitFn fn s.world
    let ev0 : List Ev := r.2.map Ev.host
    let w := r.1
    let conn := w.tray.conn
    let busName := w.tray.name
    let props := w.tray.props
    let w : World L :=
      { w with tray := { w.tray with conn := none, props := none, menuProps := none,
                                      iconData := [], title := "", tooltipTitle := "" } }
    let s : Life L := { s with world := w }
    match conn with
    | none => { state := s, events := ev0, panicked := false }
    | some _ =>
      let ev1 := ev0 ++
        (match props with
          | some _ => [Ev.bus BusCall.setMustStatusPassive]
          | none => [])
      let ev2 := ev1 ++ [Ev.bus BusCall.unexportStatusNotifierItem, Ev.bus BusCall.unexportDbusmenu,
        Ev.bus (BusCall.exportNil path "org.freedesktop.DBus.Properties"),
        Ev.bus (BusCall.exportNil menuPath "org.freedesktop.DBus.Properties"),
        Ev.bus (BusCall.exportNil path "org.freedesktop.DBus.Introspectable"),
        Ev.bus (BusCall.exportNil menuPath "org.freedesktop.DBus.Introspectable")]
      let ev3 := ev2 ++ (if busName != "" then [Ev.bus (BusCall.releaseName busName)] else [])
      { state := s, events := ev3 ++ [Ev.bus BusCall.connClose], panicked := false }

/-- The second function `RunWithExternalLoop` returns: `func() { nativeEnd(); Quit() }`. -/
def endOfExternalLoop (s : Life L) : Done (Life L) :=
  (nativeEnd s).andThen Quit

/-- The entry point `Systray_PrepareExternalLoop`: `RunWithExternalLoop` calls
`Register` and returns `nativeStart` and the function above. -/
def Systray_PrepareExternalLoop (s : Life L) : Done (Life L) :=
  let s := Register (some ReadyFn.bridgeReady) (some ExitFn.bridgeExit) s
  { state := { s with startFn := true, endFn := true }, events := [], panicked := false }

/-- The entry point `Systray_NativeStart`. It has no deferred `recover()`. -/
def Systray_NativeStart (s : Life L) : Done (Life L) :=
  if s.startFn then nativeStart C S s
  else { state := s, events := [], panicked := false }

/-- The entry point `Systray_NativeEnd`. It has no deferred `recover()`. -/
def Systray_NativeEnd (s : Life L) : Done (Life L) :=
  let d : Done (Life L) :=
    if s.endFn then endOfExternalLoop s
    else { state := s, events := [], panicked := false }
  d.andThen fun s =>
    { state := { s with world := { s.world with running := false },
                        startFn := false, endFn := false },
      events := [], panicked := false }

/-- The entry point `Systray_Quit`. It has no deferred `recover()`. -/
def Systray_Quit (s : Life L) : Done (Life L) :=
  Quit { s with world := { s.world with running := false } }

/-- The entry point `Systray_Run`: `Run` calls `Register` and `nativeLoop`, which is
`nativeStart()`, the wait `<-quitChan`, `nativeEnd()`. The call is blocked in the
wait while other threads run; `during` is what they do to the state meanwhile. It has
no deferred `recover()`. -/
def Systray_Run (during : Life L → Life L) (s : Life L) : Done (Life L) :=
  let s := Register (some ReadyFn.bridgeReady) (some ExitFn.bridgeExit) s
  (nativeStart C S s).andThen fun s => nativeEnd (during s)

end LifeCycle

/-- Successive calls of `nativeStart`, one for each of the given surroundings: what
they do, in order. -/
def startMany {L Img : Type} (C : Codec Img) : List Session → Life L → List Ev
  | [], _ => []
  | S :: rest, s =>
    let d := nativeStart C S s
    d.events ++ startMany C rest d.state

/-- Surroundings for examples: process 4242, an empty environment, a session bus on
which every call succeeds. -/
def goodSession : Session :=
  { pid := 4242, env := fun _ => none, toLower := fun c => c, connect := some 1,
    propExportItem := some 2, propExportMenu := some 3, introspectItem := true,
    introspectMenu := true }

/-- Surroundings for examples: as above, without a session bus to connect to. -/
def noBusSession : Session :=
  { goodSession with connect := none }

/-- An image library for examples: every input decodes, and the resampler leaves the
destination blank. -/
def blankCodec : Codec Unit :=
  { decode := fun _ => some (), scale := fun _ dst => dst }

/-- A platform half that keeps, as layout state, the list of the calls it received. -/
def logPlatform : Platform (List String) :=
  { addOrUpdateMenuItem := fun _ a l => l ++ [s!"addOrUpdateMenuItem {a}"]
    addSeparator := fun id l => l ++ [s!"addSeparator {id}"]
    hideMenuItem := fun _ a l => l ++ [s!"hideMenuItem {a}"]
    showMenuItem := fun _ a l => l ++ [s!"showMenuItem {a}"]
    resetMenu := fun l => l ++ ["resetMenu"]
    setItemIcon := fun _ a _ l => l ++ [s!"setItemIcon {a}"] }

/-! # Properties -/

/-! ## Allocation of ids -/

section AllocLemmas

variable {L : Type} (P : Platform L)

theorem allocated_eq (op : AddOp) (m : Menu L) :
    op.allocated P m = some (addUint32 m.currentID 1) := by
  cases op <;>
    simp [AddOp.allocated, AddMenuItem, AddMenuItemCheckbox, AddSubMenuItem,
      AddSubMenuItemCheckbox, newMenuItem, update, modifyItem, ID]

theorem run_currentID (op : AddOp) (m : Menu L) :
    (op.run P m).currentID = addUint32 m.currentID 1 := by
  cases op <;>
    simp [AddOp.run, AddMenuItem, AddMenuItemCheckbox, AddSubMenuItem,
      AddSubMenuItemCheckbox, AddSeparator, newMenuItem, update, modifyItem]

/-- The ids a sequence of operations allocates, from a counter at `m.currentID`. -/
theorem allocatedIds_eq (ops : List AddOp) (m : Menu L) :
    allocatedIds P ops m =
      (List.range ops.length).map (fun i => some ((m.currentID + 1 + i) % 2 ^ 32)) := by
  induction ops generalizing m with
  | nil => simp [allocatedIds]
  | cons op ops ih =>
    rw [allocatedIds, ih, allocated_eq, run_currentID, List.length_cons,
      List.range_succ_eq_map, List.map_cons, List.map_map]
    congr 1
    apply List.map_congr_left
    intro i _
    simp only [Function.comp, addUint32]
    congr 1
    omega

end AllocLemmas

/-- C1 (as amended): starting from the counter 0, a sequence of fewer than `2 ^ 32`
item-creating operations (AddMenuItem, AddMenuItemCheckbox, AddSubMenuItem,
AddSubMenuItemCheckbox, AddSeparator) allocates the ids 1, 2, 3, ... in this order;
they are strictly increasing in allocation order, pairwise distinct and never 0. -/
theorem C1_ids_increasing {L : Type} (P : Platform L) (ops : List AddOp) (m : Menu L)
    (h0 : m.currentID = 0) (hlen : ops.length < 2 ^ 32) :
    ∃ ids : List Nat, allocatedIds P ops m = ids.map some ∧
      ids = (List.range ops.length).map (· + 1) ∧
      ids.Pairwise (· < ·) ∧ ids.Nodup ∧ 0 ∉ ids := by
  refine ⟨(List.range ops.length).map (· + 1), ?_, rfl, ?_, ?_, ?_⟩
  · rw [allocatedIds_eq, h0, List.map_map]
    apply List.map_congr_left
    intro i hi
    have hi' : i < ops.length := List.mem_range.mp hi
    simp only [Function.comp]
    congr 1
    rw [Nat.mod_eq_of_lt] <;> omega
  · rw [List.pairwise_map]
    exact (List.pairwise_lt_range _).imp (fun h => Nat.succ_lt_succ h)
  · exact (List.nodup_range _).map (fun a b h => Nat.succ_injective h)
  · simp

/-- C1, witness: three operations from the initial state. -/
theorem C1_ids_increasing_witness :
    ∃ ids : List Nat,
      allocatedIds logPlatform
        [AddOp.addMenuItem "One" "", AddOp.addSeparator, AddOp.addSubMenuItem 0 "Sub" ""]
        (Menu.init []) = ids.map some ∧
      ids = (List.range 3).map (· + 1) ∧
      ids.Pairwise (· < ·) ∧ ids.Nodup ∧ 0 ∉ ids :=
  C1_ids_increasing logPlatform
    [AddOp.addMenuItem "One" "", AddOp.addSeparator, AddOp.addSubMenuItem 0 "Sub" ""]
    (Menu.init []) rfl (by decide)

/-- C1, counterexample to the claim as stated: the last of `2 ^ 32` consecutive
`AddSeparator` calls from the initial state is given the id 0, the counter having
wrapped around. -/
theorem C1_counterexample :
    allocatedIds logPlatform (List.replicate (2 ^ 32) AddOp.addSeparator) (Menu.init [])
        = (List.range (2 ^ 32)).map (fun i => some ((i + 1) % 2 ^ 32)) ∧
      some 0 ∈ allocatedIds logPlatform (List.replicate (2 ^ 32) AddOp.addSeparator)
        (Menu.init []) := by
  have h : allocatedIds logPlatform (List.replicate (2 ^ 32) AddOp.addSeparator) (Menu.init [])
        = (List.range (2 ^ 32)).map (fun i => some ((i + 1) % 2 ^ 32)) := by
    rw [allocatedIds_eq, List.length_replicate]
    apply List.map_congr_left
    intro i _
    simp only [Menu.init]
    congr 2
    omega
  refine ⟨h, ?_⟩
  rw [h, List.mem_map]
  exact ⟨2 ^ 32 - 1, List.mem_range.mpr (by norm_num), by norm_num⟩

/-! ## Click arbiter -/

theorem wrap64_of_isInt64 {z : Int} (h : isInt64 z) : wrap64 z = z := by
  unfold isInt64 at h
  unfold wrap64
  omega

/-- C2, counterexample to the claim as stated: with the interval at 500, both
handlers registered and the last activate time 0, `Activate(10,20)` at clock value 0
fires single-click and leaves the last activate time at 0, so `Activate(11,21)` at
clock value 300 fires single-click again (not double-click), and `Activate(12,22)`
at clock value 700 fires double-click (not single-click). -/
theorem C2_counterexample :
    (Activate 0 10 20 (setOnDClick (.host 2) (setOnClick (.host 1) Clicks.init))).2
        = ⟨[.activate (.callMenuFn (.host 1)) 10 20], none⟩ ∧
    (Activate 300 11 21
      (Activate 0 10 20 (setOnDClick (.host 2) (setOnClick (.host 1) Clicks.init))).1).2
        = ⟨[.activate (.callMenuFn (.host 1)) 11 21], none⟩ ∧
    (Activate 700 12 22 (Activate 300 11 21
      (Activate 0 10 20 (setOnDClick (.host 2) (setOnClick (.host 1) Clicks.init))).1).1).2
        = ⟨[.dActivate (.callMenuFn (.host 2)) 12 22], none⟩ := by
  decide

/-- C2 (as amended): with the interval at 500, both click handlers registered and the
last activate time 0, for every clock value `T ≥ 300`: `Activate(10,20)` at clock
value `T` fires single-click and `GetLastClickXY` becomes (10,20); then
`Activate(11,21)` at clock value `T + 300` fires double-click; then `Activate(12,22)`
at clock value `T + 700` fires single-click. -/
theorem C2_scenario (c : Clicks) (f g : XYFn) (T : Int)
    (hint : c.dClickTimeMinInterval = 500) (h0 : c.usni.dActivateTime = 0)
    (hf : c.usni.activate = some f) (hg : c.usni.dActivate = some g)
    (hT : 300 ≤ T) (hmax : T + 700 < 2 ^ 63) :
    (Activate T 10 20 c).2 = ⟨[.activate f 10 20], none⟩ ∧
    GetLastClickXY (Activate T 10 20 c).1 = (10, 20) ∧
    (Activate (T + 300) 11 21 (Activate T 10 20 c).1).2 = ⟨[.dActivate g 11 21], none⟩ ∧
    (Activate (T + 700) 12 22 (Activate (T + 300) 11 21 (Activate T 10 20 c).1).1).2
      = ⟨[.activate f 12 22], none⟩ := by
  have hT0 : T ≠ 0 := by omega
  have e1 : subInt64 (T + 300) T = 300 := by
    unfold subInt64 wrap64; omega
  have e2 : subInt64 (T + 700) 500 = T + 200 := by
    unfold subInt64 wrap64; omega
  have h1 : Activate T 10 20 c =
      ({ c with lastClickX := 10, lastClickY := 20,
                usni := { c.usni with dActivateTime := T } },
       ⟨[.activate f 10 20], none⟩) := by
    simp [Activate, activateTail, h0, hf]
  have h2 : Activate (T + 300) 11 21 (Activate T 10 20 c).1 =
      ({ c with lastClickX := 11, lastClickY := 21,
                usni := { c.usni with dActivateTime := 500 } },
       ⟨[.dActivate g 11 21], none⟩) := by
    rw [h1]
    simp [Activate, hT0, e1, hint, hg]
  have h3 : (Activate (T + 700) 12 22
      (Activate (T + 300) 11 21 (Activate T 10 20 c).1).1).2 = ⟨[.activate f 12 22], none⟩ := by
    rw [h2]
    have : ¬ (T + 200 < 500) := by omega
    simp [Activate, activateTail, e2, hint, hf, this]
  refine ⟨?_, ?_, ?_, h3⟩
  · rw [h1]
  · rw [h1]; rfl
  · rw [h2]

/-- C2, witness: the scenario at the clock values 1000, 1300 and 1700. -/
theorem C2_scenario_witness :
    (Activate 1000 10 20 (setOnDClick (.host 2) (setOnClick (.host 1) Clicks.init))).2
        = ⟨[.activate (.callMenuFn (.host 1)) 10 20], none⟩ ∧
    GetLastClickXY (Activate 1000 10 20
        (setOnDClick (.host 2) (setOnClick (.host 1) Clicks.init))).1 = (10, 20) ∧
    (Activate (1000 + 300) 11 21 (Activate 1000 10 20
        (setOnDClick (.host 2) (setOnClick (.host 1) Clicks.init))).1).2
        = ⟨[.dActivate (.callMenuFn (.host 2)) 11 21], none⟩ ∧
    (Activate (1000 + 700) 12 22 (Activate (1000 + 300) 11 21 (Activate 1000 10 20
        (setOnDClick (.host 2) (setOnClick (.host 1) Clicks.init))).1).1).2
        = ⟨[.activate (.callMenuFn (.host 1)) 12 22], none⟩ :=
  C2_scenario (setOnDClick (.host 2) (setOnClick (.host 1) Clicks.init))
    (.callMenuFn (.host 1)) (.callMenuFn (.host 2)) 1000 rfl rfl rfl rfl
    (by decide) (by decide)

/-- C3: for every arbiter state with both click handlers registered, every clock
value `now` and all coordinates, `Activate(x, y)` records `(x, y)` as the last click
coordinates, returns no error, and: if the last activate time is 0 it sets it to
`now` and calls the single-click handler only; otherwise, if `now` minus the last
activate time (the `int64` difference the code computes, which is the integer
difference whenever that fits in 64 bits) is below the interval, it calls the
double-click handler only and sets the last activate time to the interval; otherwise
it sets the last activate time to `now` and calls the single-click handler only. The
interval is 500 at start and is the value `SetDClickTimeMinInterval` was last given;
`Activate` does not change it, nor the handlers. -/
theorem C3_activate (c : Clicks) (now x y : Int) (f g : XYFn)
    (hf : c.usni.activate = some f) (hg : c.usni.dActivate = some g) :
    GetLastClickXY (Activate now x y c).1 = (x, y) ∧
    (c.usni.dActivateTime = 0 →
      (Activate now x y c).1.usni.dActivateTime = now ∧
      (Activate now x y c).2 = ⟨[.activate f x y], none⟩) ∧
    (c.usni.dActivateTime ≠ 0 →
      subInt64 now c.usni.dActivateTime < c.dClickTimeMinInterval →
      (Activate now x y c).1.usni.dActivateTime = c.dClickTimeMinInterval ∧
      (Activate now x y c).2 = ⟨[.dActivate g x y], none⟩) ∧
    (c.usni.dActivateTime ≠ 0 →
      ¬ subInt64 now c.usni.dActivateTime < c.dClickTimeMinInterval →
      (Activate now x y c).1.usni.dActivateTime = now ∧
      (Activate now x y c).2 = ⟨[.activate f x y], none⟩) ∧
    (isInt64 (now - c.usni.dActivateTime) →
      subInt64 now c.usni.dActivateTime = now - c.usni.dActivateTime) ∧
    (Activate now x y c).1.dClickTimeMinInterval = c.dClickTimeMinInterval ∧
    (Activate now x y c).1.usni.activate = some f ∧
    (Activate now x y c).1.usni.dActivate = some g ∧
    Clicks.init.dClickTimeMinInterval = 500 ∧
    (∀ v, (SetDClickTimeMinInterval v c).dClickTimeMinInterval = v ∧
      (SetDClickTimeMinInterval v c).usni = c.usni) := by
  refine ⟨?_, ?_, ?_, ?_, ?_, ?_, ?_, ?_, rfl, fun v => ⟨rfl, rfl⟩⟩
  · unfold Activate activateTail GetLastClickXY
    simp only [hf, hg]
    split_ifs <;> rfl
  · intro h0
    simp [Activate, activateTail, h0, hf]
  · intro h0 hlt
    simp [Activate, h0, hlt, hg]
  · intro h0 hlt
    simp [Activate, activateTail, h0, hlt, hf]
  · intro h
    exact wrap64_of_isInt64 h
  · unfold Activate activateTail
    simp only [hf, hg]
    split_ifs <;> rfl
  · unfold Activate activateTail
    simp only [hf, hg]
    split_ifs <;> rfl
  · unfold Activate activateTail
    simp only [hf, hg]
    split_ifs <;> rfl

/-- C3, witness: the first `Activate` on the initial state with both handlers
registered, at clock value 1000. -/
theorem C3_activate_witness :
    (setOnDClick (.host 2) (setOnClick (.host 1) Clicks.init)).usni.activate
        = some (.callMenuFn (.host 1)) ∧
    (setOnDClick (.host 2) (setOnClick (.host 1) Clicks.init)).usni.dActivate
        = some (.callMenuFn (.host 2)) ∧
    GetLastClickXY (Activate 1000 10 20
        (setOnDClick (.host 2) (setOnClick (.host 1) Clicks.init))).1 = (10, 20) ∧
    ((setOnDClick (.host 2) (setOnClick (.host 1) Clicks.init)).usni.dActivateTime = 0 →
      (Activate 1000 10 20
        (setOnDClick (.host 2) (setOnClick (.host 1) Clicks.init))).1.usni.dActivateTime
          = 1000 ∧
      (Activate 1000 10 20 (setOnDClick (.host 2) (setOnClick (.host 1) Clicks.init))).2
        = ⟨[.activate (.callMenuFn (.host 1)) 10 20], none⟩) :=
  ⟨rfl, rfl,
    (C3_activate (setOnDClick (.host 2) (setOnClick (.host 1) Clicks.init)) 1000 10 20
      (.callMenuFn (.host 1)) (.callMenuFn (.host 2)) rfl rfl).1,
    (C3_activate (setOnDClick (.host 2) (setOnClick (.host 1) Clicks.init)) 1000 10 20
      (.callMenuFn (.host 1)) (.callMenuFn (.host 2)) rfl rfl).2.1⟩

/-- An `Activate` that called the double-click handler leaves the interval as the
last activate time. -/
theorem dActivate_fired (c : Clicks) (now x y : Int) (g : XYFn)
    (h : (Activate now x y c).2.calls = [.dActivate g x y]) :
    (Activate now x y c).1.usni.dActivateTime = c.dClickTimeMinInterval ∧
    (Activate now x y c).1.dClickTimeMinInterval = c.dClickTimeMinInterval ∧
    (Activate now x y c).1.usni.activate = c.usni.activate ∧
    (Activate now x y c).1.usni.dActivate = some g := by
  unfold Activate activateTail at h ⊢
  simp only at h ⊢
  split_ifs at h ⊢ with h0 hlt
  · cases hact : c.usni.activate <;> simp [hact] at h
  · cases hd : c.usni.dActivate with
    | none => cases hact : c.usni.activate <;> simp [hd, hact] at h
    | some g' =>
      simp only [hd] at h ⊢
      simp only [List.cons.injEq, Call.dActivate.injEq, and_true] at h
      simp [h]
  · cases hact : c.usni.activate <;> simp [hact] at h

/-- C4 (as amended): for every positive interval and every clock value `now` at least
twice the interval, the `Activate` that immediately follows an `Activate` which fired
double-click never fires double-click: it fires single-click, and only that, when a
single-click handler is registered, and otherwise calls no handler and returns
UnknownMethod; however short the time between the two calls. -/
theorem C4_latch (c : Clicks) (now0 x0 y0 now x y : Int) (g : XYFn)
    (hpos : 0 < c.dClickTimeMinInterval)
    (hfired : (Activate now0 x0 y0 c).2.calls = [.dActivate g x0 y0])
    (hnow : 2 * c.dClickTimeMinInterval ≤ now) (hrange : isInt64 now) :
    (∀ g', Call.dActivate g' x y ∉ (Activate now x y (Activate now0 x0 y0 c).1).2.calls) ∧
    (∀ f, c.usni.activate = some f →
      (Activate now x y (Activate now0 x0 y0 c).1).2 = ⟨[.activate f x y], none⟩) ∧
    (c.usni.activate = none →
      (Activate now x y (Activate now0 x0 y0 c).1).2 = ⟨[], some .unknownMethod⟩) := by
  obtain ⟨ht, hi, ha, _⟩ := dActivate_fired c now0 x0 y0 g hfired
  generalize (Activate now0 x0 y0 c).1 = c1 at ht hi ha
  have hne : c1.usni.dActivateTime ≠ 0 := by rw [ht]; omega
  have hsub : subInt64 now c1.usni.dActivateTime = now - c.dClickTimeMinInterval := by
    rw [ht]
    apply wrap64_of_isInt64
    unfold isInt64 at hrange ⊢
    omega
  have hnlt : ¬ subInt64 now c1.usni.dActivateTime < c1.dClickTimeMinInterval := by
    rw [hsub, hi]; omega
  have key : Activate now x y c1 =
      activateTail x y { c1 with lastClickX := x, lastClickY := y,
                                 usni := { c1.usni with dActivateTime := now } } := by
    simp [Activate, hne, hnlt]
  rw [key]
  refine ⟨?_, ?_, ?_⟩
  · intro g'
    unfold activateTail
    cases hact : c1.usni.activate <;> simp [hact]
  · intro f hf
    simp [activateTail, ha, hf]
  · intro hf
    simp [activateTail, ha, hf]

/-- C4, witness: interval 500, both handlers registered; `Activate` at 1000 and at
1100 (double-click), then at 1101. -/
theorem C4_latch_witness :
    (∀ g', Call.dActivate g' 3 4 ∉ (Activate 1101 3 4 (Activate 1100 1 2
        (Activate 1000 0 0 (setOnDClick (.host 2) (setOnClick (.host 1) Clicks.init))).1).1).2.calls) ∧
    (∀ f, (Activate 1000 0 0
          (setOnDClick (.host 2) (setOnClick (.host 1) Clicks.init))).1.usni.activate = some f →
      (Activate 1101 3 4 (Activate 1100 1 2
        (Activate 1000 0 0 (setOnDClick (.host 2) (setOnClick (.host 1) Clicks.init))).1).1).2
        = ⟨[.activate f 3 4], none⟩) ∧
    ((Activate 1000 0 0
          (setOnDClick (.host 2) (setOnClick (.host 1) Clicks.init))).1.usni.activate = none →
      (Activate 1101 3 4 (Activate 1100 1 2
        (Activate 1000 0 0 (setOnDClick (.host 2) (setOnClick (.host 1) Clicks.init))).1).1).2
        = ⟨[], some .unknownMethod⟩) :=
  C4_latch (Activate 1000 0 0 (setOnDClick (.host 2) (setOnClick (.host 1) Clicks.init))).1
    1100 1 2 1101 3 4 (.callMenuFn (.host 2)) (by decide) (by decide) (by decide) (by decide)

/-- C4, counterexample to the claim as stated: interval 500, a double-click handler
registered and no single-click handler. `Activate` at 1000 and then at 1100 fires
double-click; the `Activate` that follows at 1200 (at least twice the interval) fires
no single-click: it calls no handler and returns UnknownMethod. -/
theorem C4_counterexample :
    (Activate 1100 1 2 (Activate 1000 0 0 (setOnDClick (.host 2) Clicks.init)).1).2
        = ⟨[.dActivate (.callMenuFn (.host 2)) 1 2], none⟩ ∧
    (Activate 1200 3 4 (Activate 1100 1 2
      (Activate 1000 0 0 (setOnDClick (.host 2) Clicks.init)).1).1).2
        = ⟨[], some .unknownMethod⟩ := by
  decide

/-! ## Pixmap builder -/

theorem getElem?_getD_of_lt {l : List Nat} {n : Nat} (h : n < l.length) :
    l[n]? = some (l.getD n 0) := by
  simp [List.getD_eq_getElem?_getD, List.getElem?_eq_getElem h]

theorem store_of_lt {buf : List Nat} {i : Nat} (v : Nat) (h : i < buf.length) :
    store buf i v = some (buf.set i v) := by
  simp [store, h]

/-- One run of the inner loop body, when the row and the buffer are long enough. -/
theorem pixelStep_eq (row buf : List Nat) (i x : Nat)
    (hrow : x * 4 + 3 < row.length) (hbuf : i + 3 < buf.length) :
    pixelStep row (buf, i) x =
      some ((((buf.set (i + 0) (row.getD (x * 4 + 3) 0)).set (i + 1) (row.getD (x * 4 + 0) 0)).set
        (i + 2) (row.getD (x * 4 + 1) 0)).set (i + 3) (row.getD (x * 4 + 2) 0), i + 4) := by
  have h0 : x * 4 + 0 < row.length := by omega
  have h1 : x * 4 + 1 < row.length := by omega
  have h2 : x * 4 + 2 < row.length := by omega
  unfold pixelStep
  rw [getElem?_getD_of_lt h0, getElem?_getD_of_lt h1, getElem?_getD_of_lt h2,
    getElem?_getD_of_lt hrow]
  simp only [Option.bind_eq_bind, Option.some_bind, Option.pure_def]
  rw [store_of_lt _ (by omega)]
  simp only [Option.some_bind]
  rw [store_of_lt _ (by simp; omega)]
  simp only [Option.some_bind]
  rw [store_of_lt _ (by simp; omega)]
  simp only [Option.some_bind]
  rw [store_of_lt _ (by simp; omega)]
  simp only [Option.some_bind]

/-- Reading the buffer after the four stores of one pixel at position `p`. -/
theorem getElem?_set4 (b : List Nat) (p a0 a1 a2 a3 j : Nat) (hp : p + 3 < b.length) :
    ((((b.set (p + 0) a0).set (p + 1) a1).set (p + 2) a2).set (p + 3) a3)[j]? =
      if j = p then some a0 else if j = p + 1 then some a1 else if j = p + 2 then some a2
      else if j = p + 3 then some a3 else b[j]? := by
  have l0 : p < b.length := by omega
  have l1 : p + 1 < b.length := by omega
  have l2 : p + 2 < b.length := by omega
  simp only [List.getElem?_set, List.length_set, Nat.add_zero, l0, l1, l2, hp, if_true]
  by_cases h0 : j = p
  · subst h0; simp
  by_cases h1 : j = p + 1
  · subst h1; simp
  by_cases h2 : j = p + 2
  · subst h2; simp
  by_cases h3 : j = p + 3
  · subst h3; simp
  have n0 : ¬ p = j := fun h => h0 h.symm
  have n1 : ¬ p + 1 = j := fun h => h1 h.symm
  have n2 : ¬ p + 2 = j := fun h => h2 h.symm
  have n3 : ¬ p + 3 = j := fun h => h3 h.symm
  simp [h0, h1, h2, h3, n0, n1, n2, n3]

/-- The inner loop over the first `k` columns: it succeeds, advances the write
position by `4 * k`, keeps the rest of the buffer, and leaves A, R, G, B of column
`x` at the positions `i + 4 * x` to `i + 4 * x + 3`. -/
theorem inner_loop (row : List Nat) (k : Nat) (buf : List Nat) (i : Nat)
    (hrow : 4 * k ≤ row.length) (hbuf : i + 4 * k ≤ buf.length) :
    ∃ buf', (List.range k).foldlM (pixelStep row) (buf, i) = some (buf', i + 4 * k) ∧
      buf'.length = buf.length ∧
      (∀ j, j < i ∨ i + 4 * k ≤ j → buf'[j]? = buf[j]?) ∧
      (∀ x, x < k →
        buf'[i + 4 * x]? = some (row.getD (x * 4 + 3) 0) ∧
        buf'[i + 4 * x + 1]? = some (row.getD (x * 4 + 0) 0) ∧
        buf'[i + 4 * x + 2]? = some (row.getD (x * 4 + 1) 0) ∧
        buf'[i + 4 * x + 3]? = some (row.getD (x * 4 + 2) 0)) := by
  induction k with
  | zero => exact ⟨buf, by simp, rfl, fun _ _ => rfl, fun x hx => absurd hx (Nat.not_lt_zero x)⟩
  | succ k ih =>
    obtain ⟨b1, hrun, hlen, hout, hin⟩ := ih (by omega) (by omega)
    have hstep := pixelStep_eq row b1 (i + 4 * k) k (by omega) (by omega)
    have hp : i + 4 * k + 3 < b1.length := by omega
    refine ⟨(((b1.set (i + 4 * k + 0) (row.getD (k * 4 + 3) 0)).set (i + 4 * k + 1)
      (row.getD (k * 4 + 0) 0)).set (i + 4 * k + 2) (row.getD (k * 4 + 1) 0)).set
        (i + 4 * k + 3) (row.getD (k * 4 + 2) 0), ?_, ?_, ?_, ?_⟩
    · rw [List.range_succ, List.foldlM_append, hrun]
      simp only [Option.bind_eq_bind, Option.some_bind, List.foldlM_cons, List.foldlM_nil, hstep]
      simp only [Option.pure_def, Option.some.injEq, Prod.mk.injEq, true_and]
      omega
    · simp [hlen]
    · intro j hj
      rw [getElem?_set4 _ _ _ _ _ _ _ hp, ← hout j (by omega), if_neg (by omega),
        if_neg (by omega), if_neg (by omega), if_neg (by omega)]
    · intro x hx
      by_cases hxk : x = k
      · subst hxk
        refine ⟨?_, ?_, ?_, ?_⟩
        · rw [getElem?_set4 _ _ _ _ _ _ _ hp, if_pos rfl]
        · rw [getElem?_set4 _ _ _ _ _ _ _ hp, if_neg (by omega), if_pos rfl]
        · rw [getElem?_set4 _ _ _ _ _ _ _ hp, if_neg (by omega), if_neg (by omega), if_pos rfl]
        · rw [getElem?_set4 _ _ _ _ _ _ _ hp, if_neg (by omega), if_neg (by omega),
            if_neg (by omega), if_pos rfl]
      · have hx' : x < k := by omega
        obtain ⟨p0, p1, p2, p3⟩ := hin x hx'
        refine ⟨?_, ?_, ?_, ?_⟩
        · rw [getElem?_set4 _ _ _ _ _ _ _ hp, ← p0, if_neg (by omega), if_neg (by omega),
            if_neg (by omega), if_neg (by omega)]
        · rw [getElem?_set4 _ _ _ _ _ _ _ hp, ← p1, if_neg (by omega), if_neg (by omega),
            if_neg (by omega), if_neg (by omega)]
        · rw [getElem?_set4 _ _ _ _ _ _ _ hp, ← p2, if_neg (by omega), if_neg (by omega),
            if_neg (by omega), if_neg (by omega)]
        · rw [getElem?_set4 _ _ _ _ _ _ _ hp, ← p3, if_neg (by omega), if_neg (by omega),
            if_neg (by omega), if_neg (by omega)]

/-- The slice expression on bounds that are natural numbers in range. -/
theorem slice_of_le (s : List Nat) (a n : Nat) (h : a + n ≤ s.length) :
    slice s (a : Int) ((a : Int) + (n : Int)) = some ((s.drop a).take n) := by
  unfold slice
  have hc : (0 : Int) ≤ a ∧ (a : Int) ≤ a + n ∧ (a : Int) + n ≤ s.length := by
    refine ⟨by omega, by omega, ?_⟩
    exact_mod_cast h
  rw [if_pos hc]
  simp

/-- Reading a row that was cut out of the pixel buffer. -/
theorem getD_row (pix : List Nat) (a n j : Nat) (hj : j < n) :
    ((pix.drop a).take n).getD j 0 = pix.getD (a + j) 0 := by
  simp [List.getD_eq_getElem?_getD, List.getElem?_take, hj, List.getElem?_drop]

/-- One run of the outer loop body on an image with origin (0,0). -/
theorem rowStep_eq (img : RGBA) (W S y : Nat) (st : List Nat × Nat)
    (hx : img.Rect.minX = 0) (hy : img.Rect.minY = 0) (hS : img.Stride = S)
    (hlen : y * S + 4 * W ≤ img.Pix.length) :
    rowStep img (W : Int) st y =
      (List.range W).foldlM (pixelStep ((img.Pix.drop (y * S)).take (4 * W))) st := by
  have e1 : img.PixOffset 0 (y : Int) = ((y * S : Nat) : Int) := by
    simp [RGBA.PixOffset, hx, hy, hS]
  have e2 : (W : Int) * 4 = ((4 * W : Nat) : Int) := by push_cast; ring
  unfold rowStep
  simp only [e1, e2, slice_of_le _ _ _ hlen, Option.bind_eq_bind, Option.some_bind,
    Int.toNat_ofNat]

/-- The outer loop over the first `n` rows of an image with origin (0,0). -/
theorem outer_loop (img : RGBA) (W S : Nat) (buf : List Nat)
    (hx : img.Rect.minX = 0) (hy : img.Rect.minY = 0) (hS : img.Stride = S) (n : Nat)
    (hpix : ∀ y, y < n → y * S + 4 * W ≤ img.Pix.length)
    (hbuf : 4 * (W * n) ≤ buf.length) :
    ∃ buf', (List.range n).foldlM (rowStep img (W : Int)) (buf, 0) = some (buf', 4 * (W * n)) ∧
      buf'.length = buf.length ∧
      (∀ j, 4 * (W * n) ≤ j → buf'[j]? = buf[j]?) ∧
      (∀ y x, y < n → x < W →
        buf'[4 * (y * W + x)]? = some (img.Pix.getD (y * S + 4 * x + 3) 0) ∧
        buf'[4 * (y * W + x) + 1]? = some (img.Pix.getD (y * S + 4 * x + 0) 0) ∧
        buf'[4 * (y * W + x) + 2]? = some (img.Pix.getD (y * S + 4 * x + 1) 0) ∧
        buf'[4 * (y * W + x) + 3]? = some (img.Pix.getD (y * S + 4 * x + 2) 0)) := by
  induction n with
  | zero => exact ⟨buf, by simp, rfl, fun _ _ => rfl, fun y x hy => absurd hy (Nat.not_lt_zero y)⟩
  | succ n ih =>
    have hmul : W * (n + 1) = W * n + W := Nat.mul_succ W n
    obtain ⟨b1, hrun, hlen, hout, hin⟩ := ih (fun y hy => hpix y (by omega)) (by omega)
    have hrowlen : ((img.Pix.drop (n * S)).take (4 * W)).length = 4 * W := by
      have := hpix n (by omega)
      simp only [List.length_take, List.length_drop]
      omega
    obtain ⟨b2, hrun2, hlen2, hout2, hin2⟩ :=
      inner_loop ((img.Pix.drop (n * S)).take (4 * W)) W b1 (4 * (W * n))
        (by omega) (by omega)
    refine ⟨b2, ?_, by omega, ?_, ?_⟩
    · rw [List.range_succ, List.foldlM_append, hrun]
      simp only [Option.bind_eq_bind, Option.some_bind, List.foldlM_cons, List.foldlM_nil]
      rw [rowStep_eq img W S n _ hx hy hS (hpix n (by omega)), hrun2]
      simp only [Option.some_bind, Option.pure_def, Option.some.injEq, Prod.mk.injEq, true_and]
      omega
    · intro j hj
      rw [hout2 j (by omega), hout j (by omega)]
    · intro y x hyn hxW
      by_cases hyn' : y = n
      · subst hyn'
        have hidx : 4 * (y * W + x) = 4 * (W * y) + 4 * x := by
          rw [Nat.mul_comm y W]; omega
        obtain ⟨p0, p1, p2, p3⟩ := hin2 x hxW
        rw [getD_row _ _ _ _ (by omega)] at p0 p1 p2 p3
        rw [hidx]
        refine ⟨?_, ?_, ?_, ?_⟩
        · rw [p0]; congr 2; omega
        · rw [p1]; congr 2; omega
        · rw [p2]; congr 2; omega
        · rw [p3]; congr 2; omega
      · have hy' : y < n := by omega
        have hle : y * W + W ≤ W * n := by
          have := Nat.mul_le_mul_left W (show y + 1 ≤ n by omega)
          rw [Nat.mul_succ, Nat.mul_comm W y] at this
          exact this
        obtain ⟨p0, p1, p2, p3⟩ := hin y x hy' hxW
        refine ⟨?_, ?_, ?_, ?_⟩
        · rw [hout2 _ (Or.inl (by omega)), p0]
        · rw [hout2 _ (Or.inl (by omega)), p1]
        · rw [hout2 _ (Or.inl (by omega)), p2]
        · rw [hout2 _ (Or.inl (by omega)), p3]

/-- Reading the samples of a pixel of an image with origin (0,0). -/
theorem RGBAAt_eq (img : RGBA) (w h s x y : Nat)
    (hrect : img.Rect = ⟨0, 0, w, h⟩) (hS : img.Stride = s)
    (hx : x < w) (hy : y < h) (hlen : y * s + 4 * w ≤ img.Pix.length) :
    img.RGBAAt x y = some (img.Pix.getD (y * s + 4 * x + 0) 0, img.Pix.getD (y * s + 4 * x + 1) 0,
      img.Pix.getD (y * s + 4 * x + 2) 0, img.Pix.getD (y * s + 4 * x + 3) 0) := by
  have e1 : img.PixOffset (x : Int) (y : Int) = ((y * s + 4 * x : Nat) : Int) := by
    simp [RGBA.PixOffset, hrect, hS]; ring
  have hin : img.Rect.minX ≤ (x : Int) ∧ (x : Int) < img.Rect.maxX ∧
      img.Rect.minY ≤ (y : Int) ∧ (y : Int) < img.Rect.maxY := by
    rw [hrect]; simp; omega
  have e4 : ((y * s + 4 * x : Nat) : Int) + 4 = ((y * s + 4 * x : Nat) : Int) + ((4 : Nat) : Int) := by
    simp
  unfold RGBA.RGBAAt
  rw [if_pos hin]
  simp only [e1]
  rw [e4, slice_of_le _ _ _ (by omega)]
  have g0 := getElem?_getD_of_lt (l := (img.Pix.drop (y * s + 4 * x)).take 4) (n := 0)
    (by simp only [List.length_take, List.length_drop]; omega)
  have g1 := getElem?_getD_of_lt (l := (img.Pix.drop (y * s + 4 * x)).take 4) (n := 1)
    (by simp only [List.length_take, List.length_drop]; omega)
  have g2 := getElem?_getD_of_lt (l := (img.Pix.drop (y * s + 4 * x)).take 4) (n := 2)
    (by simp only [List.length_take, List.length_drop]; omega)
  have g3 := getElem?_getD_of_lt (l := (img.Pix.drop (y * s + 4 * x)).take 4) (n := 3)
    (by simp only [List.length_take, List.length_drop]; omega)
  rw [getD_row _ _ _ _ (by omega)] at g0 g1 g2 g3
  simp only [Option.bind_eq_bind, Option.some_bind, Option.pure_def, g0, g1, g2, g3]

/-- The result of `toARGB32BigEndian` on an image with origin (0,0) whose pixel
buffer holds its rows. -/
theorem toARGB32BigEndian_spec (img : RGBA) (w h s : Nat)
    (hrect : img.Rect = ⟨0, 0, w, h⟩) (hS : img.Stride = s)
    (hpix : 0 < h → (h - 1) * s + 4 * w ≤ img.Pix.length) :
    ∃ buf, toARGB32BigEndian img = some buf ∧ buf.length = w * h * 4 ∧
      ∀ x y, x < w → y < h →
        ∃ r g b a, img.RGBAAt x y = some (r, g, b, a) ∧
          buf[4 * (y * w + x)]? = some a ∧ buf[4 * (y * w + x) + 1]? = some r ∧
          buf[4 * (y * w + x) + 2]? = some g ∧ buf[4 * (y * w + x) + 3]? = some b := by
  have hrows : ∀ y, y < h → y * s + 4 * w ≤ img.Pix.length := by
    intro y hy
    have h1 := hpix (by omega)
    have h2 : y * s ≤ (h - 1) * s := Nat.mul_le_mul_right s (by omega)
    omega
  have hx0 : img.Rect.minX = 0 := by rw [hrect]
  have hy0 : img.Rect.minY = 0 := by rw [hrect]
  have hdx : img.Rect.Dx = (w : Int) := by simp [Rectangle.Dx, hrect]
  have hdy : img.Rect.Dy = (h : Int) := by simp [Rectangle.Dy, hrect]
  have hmk : makeBytes ((w : Int) * h * 4) = some (List.replicate (w * h * 4) 0) := by
    have e : (w : Int) * h * 4 = ((w * h * 4 : Nat) : Int) := by push_cast; ring
    rw [e]
    unfold makeBytes
    rw [if_pos (Int.ofNat_zero_le _), Int.toNat_ofNat]
  obtain ⟨buf, hrun, hlen, _, hin⟩ :=
    outer_loop img w s (List.replicate (w * h * 4) 0) hx0 hy0 hS h hrows
      (by simp only [List.length_replicate]; omega)
  refine ⟨buf, ?_, ?_, ?_⟩
  · unfold toARGB32BigEndian
    simp only [hdx, hdy, hmk, Option.bind_eq_bind, Option.some_bind, Int.toNat_ofNat, hrun,
      Option.pure_def]
  · rw [hlen, List.length_replicate]
  · intro x y hx hy
    obtain ⟨p0, p1, p2, p3⟩ := hin y x hy hx
    exact ⟨_, _, _, _, RGBAAt_eq img w h s x y hrect hS hx hy (hrows y hy), p0, p1, p2, p3⟩

/-- C5: for every `w`-by-`h` RGBA image with origin (0,0), any stride `s ≥ 4 * w`
and a pixel buffer that holds its `h` rows, `toARGB32BigEndian` returns a buffer of
exactly `w * h * 4` bytes in which, for every pixel `(x, y)` with `x < w` and `y < h`,
the four bytes at offset `4 * (y * w + x)` are, in order, the alpha, red, green and
blue samples of source pixel `(x, y)`. -/
theorem C5_toARGB32BigEndian (img : RGBA) (w h s : Nat)
    (hrect : img.Rect = ⟨0, 0, w, h⟩) (hS : img.Stride = s) (_hstride : 4 * w ≤ s)
    (hpix : 0 < h → (h - 1) * s + 4 * w ≤ img.Pix.length) :
    ∃ buf, toARGB32BigEndian img = some buf ∧ buf.length = w * h * 4 ∧
      ∀ x y, x < w → y < h →
        ∃ r g b a, img.RGBAAt x y = some (r, g, b, a) ∧
          buf[4 * (y * w + x)]? = some a ∧ buf[4 * (y * w + x) + 1]? = some r ∧
          buf[4 * (y * w + x) + 2]? = some g ∧ buf[4 * (y * w + x) + 3]? = some b :=
  toARGB32BigEndian_spec img w h s hrect hS hpix

/-- C5, witness: a 2-by-1 image with stride 12 (four bytes of padding). -/
theorem C5_toARGB32BigEndian_witness :
    toARGB32BigEndian ⟨[1, 2, 3, 4, 5, 6, 7, 8, 0, 0, 0, 0], 12, ⟨0, 0, 2, 1⟩⟩
      = some [4, 1, 2, 3, 8, 5, 6, 7] ∧
    ∃ buf, toARGB32BigEndian ⟨[1, 2, 3, 4, 5, 6, 7, 8, 0, 0, 0, 0], 12, ⟨0, 0, 2, 1⟩⟩ = some buf ∧
      buf.length = 2 * 1 * 4 ∧
      ∀ x y : Nat, x < 2 → y < 1 →
        ∃ r g b a, RGBA.RGBAAt ⟨[1, 2, 3, 4, 5, 6, 7, 8, 0, 0, 0, 0], 12, ⟨0, 0, 2, 1⟩⟩ x y
            = some (r, g, b, a) ∧
          buf[4 * (y * 2 + x)]? = some a ∧ buf[4 * (y * 2 + x) + 1]? = some r ∧
          buf[4 * (y * 2 + x) + 2]? = some g ∧ buf[4 * (y * 2 + x) + 3]? = some b :=
  ⟨by decide,
   C5_toARGB32BigEndian ⟨[1, 2, 3, 4, 5, 6, 7, 8, 0, 0, 0, 0], 12, ⟨0, 0, 2, 1⟩⟩ 2 1 12
    rfl rfl (by decide) (by decide)⟩

/-- The image `resizeTo` returns for a square target, when the resampler keeps the
geometry of its destination. -/
theorem resizeTo_shape {Img : Type} (C : Codec Img) (hC : C.KeepsShape) (img : Img) (s : Nat) :
    (resizeTo C img s s).Rect = ⟨0, 0, s, s⟩ ∧ (resizeTo C img s s).Stride = ((4 * s : Nat) : Int) ∧
    (resizeTo C img s s).Pix.length = 4 * s * s := by
  obtain ⟨h1, h2, h3⟩ := hC img (NewRGBA (Rect 0 0 s s))
  have hr : Rect 0 0 (s : Int) (s : Int) = ⟨0, 0, s, s⟩ := by
    have : ¬ (0 : Int) > s := by omega
    simp [Rect, this]
  unfold resizeTo
  simp only []
  rw [hr] at h1 h2 h3 ⊢
  refine ⟨h1.trans rfl, h2.trans ?_, h3.trans ?_⟩
  · simp [NewRGBA, Rectangle.Dx]
  · have e : (4 : Int) * s * s = ((4 * s * s : Nat) : Int) := by push_cast; ring
    simp only [NewRGBA, Rectangle.Dx, Rectangle.Dy, sub_zero, List.length_replicate, e,
      Int.toNat_ofNat]

/-- One run of the loop body of `buildPixmaps`. -/
theorem pixmapStep_eq {Img : Type} (C : Codec Img) (hC : C.KeepsShape) (img : Img) (s : Nat) :
    ∃ pix, pix.length = s * s * 4 ∧
      ∀ out, pixmapStep C img out (s : Int) = some (out ++ [{ W := s, H := s, Pix := pix }]) := by
  obtain ⟨h1, h2, h3⟩ := resizeTo_shape C hC img s
  obtain ⟨buf, hbuf, hlen, _⟩ := toARGB32BigEndian_spec (resizeTo C img s s) s s (4 * s) h1 h2
    (by
      intro hs
      rw [h3]
      obtain ⟨t, rfl⟩ : ∃ t, s = t + 1 := ⟨s - 1, by omega⟩
      simp only [Nat.add_sub_cancel]
      have : 4 * (t + 1) * (t + 1) = t * (4 * (t + 1)) + 4 * (t + 1) := by ring
      omega)
  refine ⟨buf, hlen, fun out => ?_⟩
  simp [pixmapStep, hbuf]

/-- C6: `buildPixmaps` returns the empty list when its input is empty or fails to
decode; for every input that decodes (decoder and resampler being any functions, the
resampler filling the `s`-by-`s` RGBA image it is handed) it returns exactly 7
pixmaps, in the order of the sizes 16, 22, 24, 32, 48, 64, 128, each with
`W = H =` that size and `len(Pix) = W * H * 4`. -/
theorem C6_buildPixmaps {Img : Type} (C : Codec Img) (hC : C.KeepsShape) (data : List Nat) :
    (data = [] → buildPixmaps C data = some []) ∧
    (C.decode data = none → buildPixmaps C data = some []) ∧
    (∀ img, data ≠ [] → C.decode data = some img →
      ∃ p16 p22 p24 p32 p48 p64 p128 : List Nat,
        buildPixmaps C data = some [⟨16, 16, p16⟩, ⟨22, 22, p22⟩, ⟨24, 24, p24⟩, ⟨32, 32, p32⟩,
          ⟨48, 48, p48⟩, ⟨64, 64, p64⟩, ⟨128, 128, p128⟩] ∧
        p16.length = 16 * 16 * 4 ∧ p22.length = 22 * 22 * 4 ∧ p24.length = 24 * 24 * 4 ∧
        p32.length = 32 * 32 * 4 ∧ p48.length = 48 * 48 * 4 ∧ p64.length = 64 * 64 * 4 ∧
        p128.length = 128 * 128 * 4) := by
  refine ⟨?_, ?_, ?_⟩
  · intro h
    simp [buildPixmaps, h]
  · intro h
    unfold buildPixmaps
    split_ifs
    · rfl
    · rw [h]
  · intro img hne hdec
    obtain ⟨p16, l16, e16⟩ := pixmapStep_eq C hC img 16
    obtain ⟨p22, l22, e22⟩ := pixmapStep_eq C hC img 22
    obtain ⟨p24, l24, e24⟩ := pixmapStep_eq C hC img 24
    obtain ⟨p32, l32, e32⟩ := pixmapStep_eq C hC img 32
    obtain ⟨p48, l48, e48⟩ := pixmapStep_eq C hC img 48
    obtain ⟨p64, l64, e64⟩ := pixmapStep_eq C hC img 64
    obtain ⟨p128, l128, e128⟩ := pixmapStep_eq C hC img 128
    refine ⟨p16, p22, p24, p32, p48, p64, p128, ?_, l16, l22, l24, l32, l48, l64, l128⟩
    have hlen : ¬ data.length = 0 := fun h => hne (List.length_eq_zero.mp h)
    unfold buildPixmaps
    rw [if_neg hlen, hdec]
    simp only [targets, List.foldlM_cons, List.foldlM_nil, Option.bind_eq_bind]
    simp only [Nat.cast_ofNat] at e16 e22 e24 e32 e48 e64 e128
    rw [e16, Option.some_bind, e22, Option.some_bind, e24, Option.some_bind, e32,
      Option.some_bind, e48, Option.some_bind, e64, Option.some_bind, e128, Option.some_bind]
    rfl

/-- C6, witness: a one-byte input with an image library in which every input decodes. -/
theorem C6_buildPixmaps_witness :
    blankCodec.KeepsShape ∧
    ∃ p16 p22 p24 p32 p48 p64 p128 : List Nat,
      buildPixmaps blankCodec [1] = some [⟨16, 16, p16⟩, ⟨22, 22, p22⟩, ⟨24, 24, p24⟩,
        ⟨32, 32, p32⟩, ⟨48, 48, p48⟩, ⟨64, 64, p64⟩, ⟨128, 128, p128⟩] ∧
      p16.length = 16 * 16 * 4 ∧ p22.length = 22 * 22 * 4 ∧ p24.length = 24 * 24 * 4 ∧
      p32.length = 32 * 32 * 4 ∧ p48.length = 48 * 48 * 4 ∧ p64.length = 64 * 64 * 4 ∧
      p128.length = 128 * 128 * 4 :=
  ⟨fun _ _ => ⟨rfl, rfl, rfl⟩,
   (C6_buildPixmaps blankCodec (fun _ _ => ⟨rfl, rfl, rfl⟩) [1]).2.2 () (by decide) rfl⟩

/-! ## The path advertised when there is no menu -/

/-- The function `strings.Contains` decides whether `sub` occurs as a contiguous part. -/
theorem containsChars_iff (s sub : List Char) : containsChars s sub = true ↔ sub <:+: s := by
  induction s with
  | nil => simp [containsChars, List.isEmpty_iff]
  | cons c rest ih =>
    rw [containsChars, Bool.or_eq_true, ih, List.infix_cons_iff]
    simp



theorem Contains_iff (u : Char → Char) (value word : String) :
    Contains (ToLower u value) word = true ↔ mentions u value word :=
  containsChars_iff _ _

theorem Getenv_ne_empty (env : String → Option String) (key : String) :
    (Getenv env key != "") = true ↔ ∃ v, env key = some v ∧ v ≠ "" := by
  unfold Getenv
  cases h : env key with
  | none => simp
  | some v => simp

/-- C7 (as amended): for all values of `XDG_CURRENT_DESKTOP`, `DESKTOP_SESSION` and
`KDE_FULL_SESSION` (each set or unset), `noMenuPathForEnvironment` returns
"/NO_DBUSMENU" if and only if `XDG_CURRENT_DESKTOP` or `DESKTOP_SESSION` contains
"kde" or "plasma" case-insensitively, or `KDE_FULL_SESSION` is set to a non-empty
value; in every other case it returns "/". In particular `XDG_CURRENT_DESKTOP="KDE"`
gives "/NO_DBUSMENU", and `XDG_CURRENT_DESKTOP="GNOME"` with the other two unset
gives "/". -/
theorem C7_noMenuPath (u : Char → Char) (env : String → Option String) :
    (noMenuPathForEnvironment u env = "/NO_DBUSMENU" ↔ DetectsKDE u env) ∧
    (¬ DetectsKDE u env → noMenuPathForEnvironment u env = "/") ∧
    (∀ sess kde, noMenuPathForEnvironment u (envOf (some "KDE") sess kde) = "/NO_DBUSMENU") ∧
    noMenuPathForEnvironment u (envOf (some "GNOME") none none) = "/" := by
  have key : ∀ e : String → Option String,
      (Contains (ToLower u (Getenv e "XDG_CURRENT_DESKTOP")) "kde" ||
        Contains (ToLower u (Getenv e "XDG_CURRENT_DESKTOP")) "plasma" ||
        Contains (ToLower u (Getenv e "DESKTOP_SESSION")) "kde" ||
        Contains (ToLower u (Getenv e "DESKTOP_SESSION")) "plasma" ||
        (Getenv e "KDE_FULL_SESSION" != "")) = true ↔ DetectsKDE u e := by
    intro e
    simp only [Bool.or_eq_true, Contains_iff, Getenv_ne_empty, DetectsKDE, or_assoc]
  refine ⟨?_, ?_, ?_, rfl⟩
  · rw [← key env]
    unfold noMenuPathForEnvironment
    simp only []
    split_ifs with h
    · simp [h]
    · simp only [h, iff_false]
      decide
  · intro hn
    rw [← key env] at hn
    unfold noMenuPathForEnvironment
    simp only []
    rw [if_neg hn]
  · intro sess kde
    have hk : DetectsKDE u (envOf (some "KDE") sess kde) :=
      Or.inl ((Contains_iff u _ _).mp rfl)
    rw [← key] at hk
    unfold noMenuPathForEnvironment
    simp only []
    rw [if_pos hk]

/-- C7, counterexample to the claim as stated: with `KDE_FULL_SESSION` set to the
empty string and the other two variables unset, `KDE_FULL_SESSION` is set and the
function returns "/". -/
theorem C7_counterexample :
    envOf none none (some "") "KDE_FULL_SESSION" = some "" ∧
    noMenuPathForEnvironment (fun c => c) (envOf none none (some "")) = "/" := by
  decide

/-! ## The running gate of the bridge -/

/-- C8: when `running` is false, each of `Systray_SetIcon`, `Systray_SetTitle`,
`Systray_SetTooltip`, `Systray_AddMenuItemCheckbox`, `Systray_AddSeparator`,
`Systray_ResetMenu`, `Systray_AddSubMenuItem`, `Systray_AddSubMenuItemCheckbox`,
`Systray_MenuItem_SetTitle`, `Systray_MenuItem_Enable`, `_Disable`, `_Show`, `_Hide`,
`_Check`, `_Uncheck` and `Systray_SetMenuItemIcon`, for every argument, leaves the
whole state unchanged (the id counter, the item registry, every item, the layout, the
tray state, the bus), and the ones that return an id or an int return 0. -/
theorem C8_running_gate {L Img : Type} (P : Platform L) (C : Codec Img) (D : DBusLib)
    (w : World L) (h : w.running = false) :
    (∀ iconBytes length, Systray_SetIcon C iconBytes length w = w) ∧
    (∀ title, Systray_SetTitle D title w = w) ∧
    (∀ tooltip, Systray_SetTooltip C tooltip w = w) ∧
    (∀ title tooltip checked, Systray_AddMenuItemCheckbox P title tooltip checked w = (w, 0)) ∧
    Systray_AddSeparator P w = w ∧
    Systray_ResetMenu P w = w ∧
    (∀ parentID title tooltip, Systray_AddSubMenuItem P parentID title tooltip w = (w, 0)) ∧
    (∀ parentID title tooltip checked,
      Systray_AddSubMenuItemCheckbox P parentID title tooltip checked w = (w, 0)) ∧
    (∀ id title, Systray_MenuItem_SetTitle P id title w = (w, 0)) ∧
    (∀ id, Systray_MenuItem_Enable P id w = w) ∧
    (∀ id, Systray_MenuItem_Disable P id w = w) ∧
    (∀ id, Systray_MenuItem_Show P id w = w) ∧
    (∀ id, Systray_MenuItem_Hide P id w = w) ∧
    (∀ id, Systray_MenuItem_Check P id w = w) ∧
    (∀ id, Systray_MenuItem_Uncheck P id w = w) ∧
    (∀ iconBytes length id, Systray_SetMenuItemIcon P iconBytes length id w = w) := by
  refine ⟨?_, ?_, ?_, ?_, ?_, ?_, ?_, ?_, ?_, ?_, ?_, ?_, ?_, ?_, ?_, ?_⟩
  · intro iconBytes length; simp [Systray_SetIcon, h]
  · intro title; simp [Systray_SetTitle, h]
  · intro tooltip; simp [Systray_SetTooltip, h]
  · intro title tooltip checked; simp [Systray_AddMenuItemCheckbox, h]
  · simp [Systray_AddSeparator, h]
  · simp [Systray_ResetMenu, h]
  · intro parentID title tooltip; simp [Systray_AddSubMenuItem, h]
  · intro parentID title tooltip checked; simp [Systray_AddSubMenuItemCheckbox, h]
  · intro id title; simp [Systray_MenuItem_SetTitle, h]
  · intro id; simp [Systray_MenuItem_Enable, h]
  · intro id; simp [Systray_MenuItem_Disable, h]
  · intro id; simp [Systray_MenuItem_Show, h]
  · intro id; simp [Systray_MenuItem_Hide, h]
  · intro id; simp [Systray_MenuItem_Check, h]
  · intro id; simp [Systray_MenuItem_Uncheck, h]
  · intro iconBytes length id; simp [Systray_SetMenuItemIcon, h]

/-- C8, witness: the state after `Systray_AddMenuItem("One", "")` at program start,
where `running` is still false; then `Systray_MenuItem_SetTitle(1, "x")` and
`Systray_AddSeparator()` change nothing. -/
theorem C8_running_gate_witness :
    (Systray_AddMenuItem logPlatform (some "One") (some "") (World.init [])).1.running = false ∧
    (Systray_AddMenuItem logPlatform (some "One") (some "") (World.init [])).2 = 1 ∧
    Systray_MenuItem_SetTitle logPlatform 1 (some "x")
        (Systray_AddMenuItem logPlatform (some "One") (some "") (World.init [])).1
      = ((Systray_AddMenuItem logPlatform (some "One") (some "") (World.init [])).1, 0) ∧
    Systray_AddSeparator logPlatform
        (Systray_AddMenuItem logPlatform (some "One") (some "") (World.init [])).1
      = (Systray_AddMenuItem logPlatform (some "One") (some "") (World.init [])).1 :=
  ⟨rfl, rfl,
   (C8_running_gate logPlatform blankCodec ⟨fun _ => true⟩
      (Systray_AddMenuItem logPlatform (some "One") (some "") (World.init [])).1 rfl).2.2.2.2.2.2.2.2.1
      1 (some "x"),
   (C8_running_gate logPlatform blankCodec ⟨fun _ => true⟩
      (Systray_AddMenuItem logPlatform (some "One") (some "") (World.init [])).1 rfl).2.2.2.2.1⟩

/-! ## Items changed by id -/

theorem lookup_insert (r : List (Nat × Nat)) (k v k' : Nat) :
    lookup (insert r k v) k' = if k = k' then some v else lookup r k' := by
  induction r with
  | nil => simp [insert, lookup]
  | cons e rest ih =>
    obtain ⟨k0, v0⟩ := e
    by_cases h0 : k0 = k
    · subst h0
      by_cases h1 : k0 = k' <;> simp [insert, lookup, h1]
    · by_cases h1 : k0 = k'
      · subst h1
        simp [insert, lookup, h0, Ne.symm h0]
      · simp [insert, lookup, h0, h1, ih]

/-- Storing again what the registry holds leaves the registry as it is. -/
theorem insert_of_lookup (r : List (Nat × Nat)) (k v : Nat) (h : lookup r k = some v) :
    insert r k v = r := by
  induction r with
  | nil => simp [lookup] at h
  | cons e rest ih =>
    obtain ⟨k0, v0⟩ := e
    by_cases h0 : k0 = k
    · simp [lookup, h0] at h
      simp [insert, h0, h]
    · simp [lookup, h0] at h
      simp [insert, h0, ih h]

section ByIDLemmas

variable {L : Type} (P : Platform L)

/-- A change of the item at a live address followed by `update`. -/
theorem update_modifyItem (a : Nat) (g : MenuItem → MenuItem) (m : Menu L) (it : MenuItem)
    (h : m.heap[a]? = some it) :
    (update P a (modifyItem a g m)).heap = m.heap.set a (g it) ∧
    (update P a (modifyItem a g m)).currentID = m.currentID ∧
    (update P a (modifyItem a g m)).menuItems = insert m.menuItems (g it).id a := by
  have hlt : a < m.heap.length := by
    by_contra hc
    rw [List.getElem?_eq_none (by omega)] at h
    cases h
  have hset : (m.heap.set a (g it))[a]? = some (g it) := by
    simp [List.getElem?_set, hlt]
  simp [update, modifyItem, h, hset]

/-- An operation of the form "look the id up, change the item, `update`" meets the contract. -/
theorem byID_contract (g : MenuItem → MenuItem) (m : Menu L) (id : Nat) :
    ByIDContract m id g
      (match getMenuItem m id with
       | some item => (update P item (modifyItem item g m), true)
       | none => (m, false)) := by
  unfold ByIDContract getMenuItem
  cases hl : lookup m.menuItems id with
  | none => simp
  | some a =>
    refine ⟨by simp, by simp, ?_⟩
    intro a' it ha hit
    cases ha
    obtain ⟨h1, h2, _⟩ := update_modifyItem P a g m it hit
    have hlt : a < m.heap.length := by
      by_contra hc
      rw [List.getElem?_eq_none (by omega)] at hit
      cases hit
    refine ⟨rfl, h1, ?_, ?_, h2⟩
    · simp only [h1, List.getElem?_set, hlt, if_true]
    · intro j hj
      simp only [h1, List.getElem?_set, Ne.symm hj, if_false]

end ByIDLemmas

/-! ### The registry points at live items -/

theorem WF_init {L : Type} (l : L) : (Menu.init l).WF := by
  intro id a h
  simp [Menu.init, lookup] at h

/-- A step that registers the item at `a` under its id and keeps the id of every
item allocated before keeps the registry well formed. -/
theorem WF_step {L : Type} (m m' : Menu L) (hwf : m.WF) (a : Nat) (it : MenuItem)
    (hreg : m'.menuItems = insert m.menuItems it.id a) (hat : m'.heap[a]? = some it)
    (hkeep : ∀ (j : Nat) (x : MenuItem), m.heap[j]? = some x →
      ∃ x' : MenuItem, m'.heap[j]? = some x' ∧ x'.id = x.id) :
    m'.WF := by
  intro id b hl
  rw [hreg, lookup_insert] at hl
  by_cases h : it.id = id
  · rw [if_pos h] at hl
    cases hl
    exact ⟨it, hat, h⟩
  · rw [if_neg h] at hl
    obtain ⟨x, hx, hid⟩ := hwf id b hl
    obtain ⟨x', hx', hid'⟩ := hkeep b x hx
    exact ⟨x', hx', hid'.trans hid⟩

/-- Every item-creating operation keeps the registry well formed. -/
theorem WF_run {L : Type} (P : Platform L) (op : AddOp) (m : Menu L) (hwf : m.WF) :
    (op.run P m).WF := by
  have hkeep : ∀ (new : MenuItem) (j : Nat) (x : MenuItem), m.heap[j]? = some x →
      ∃ x', (m.heap ++ [new])[j]? = some x' ∧ x'.id = x.id := by
    intro new j x hx
    have hlt : j < m.heap.length := by
      by_contra hc
      rw [List.getElem?_eq_none (by omega)] at hx
      cases hx
    exact ⟨x, by rw [List.getElem?_append_left hlt, hx], rfl⟩
  cases op with
  | addMenuItem t tt =>
    refine WF_step m _ hwf m.heap.length
      { click := none, id := addUint32 m.currentID 1, title := t, tooltip := tt,
        shortcutKey := "", disabled := false, checked := false, isCheckable := false,
        parent := none } ?_ ?_ ?_
    · simp [AddOp.run, AddMenuItem, newMenuItem, update]
    · simp [AddOp.run, AddMenuItem, newMenuItem, update]
    · intro j x hx
      simpa [AddOp.run, AddMenuItem, newMenuItem, update] using hkeep _ j x hx
  | addMenuItemCheckbox t tt c =>
    refine WF_step m _ hwf m.heap.length
      { click := none, id := addUint32 m.currentID 1, title := t, tooltip := tt,
        shortcutKey := "", disabled := false, checked := c, isCheckable := true,
        parent := none } ?_ ?_ ?_
    · simp [AddOp.run, AddMenuItemCheckbox, newMenuItem, update, modifyItem]
    · simp [AddOp.run, AddMenuItemCheckbox, newMenuItem, update, modifyItem]
    · intro j x hx
      simpa [AddOp.run, AddMenuItemCheckbox, newMenuItem, update, modifyItem]
        using hkeep _ j x hx
  | addSubMenuItem i t tt =>
    refine WF_step m _ hwf m.heap.length
      { click := none, id := addUint32 m.currentID 1, title := t, tooltip := tt,
        shortcutKey := "", disabled := false, checked := false, isCheckable := false,
        parent := some i } ?_ ?_ ?_
    · simp [AddOp.run, AddSubMenuItem, newMenuItem, update]
    · simp [AddOp.run, AddSubMenuItem, newMenuItem, update]
    · intro j x hx
      simpa [AddOp.run, AddSubMenuItem, newMenuItem, update] using hkeep _ j x hx
  | addSubMenuItemCheckbox i t tt c =>
    refine WF_step m _ hwf m.heap.length
      { click := none, id := addUint32 m.currentID 1, title := t, tooltip := tt,
        shortcutKey := "", disabled := false, checked := c, isCheckable := true,
        parent := some i } ?_ ?_ ?_
    · simp [AddOp.run, AddSubMenuItemCheckbox, newMenuItem, update, modifyItem]
    · simp [AddOp.run, AddSubMenuItemCheckbox, newMenuItem, update, modifyItem]
    · intro j x hx
      simpa [AddOp.run, AddSubMenuItemCheckbox, newMenuItem, update, modifyItem]
        using hkeep _ j x hx
  | addSeparator =>
    intro id a hl
    exact hwf id a hl

/-- A change of an item that keeps its id, followed by `update`, keeps the registry
well formed and, on a well-formed registry, leaves the registry as it is. -/
theorem WF_update_modifyItem {L : Type} (P : Platform L) (a : Nat) (g : MenuItem → MenuItem)
    (hg : ∀ i, (g i).id = i.id) (m : Menu L) (hwf : m.WF) (id : Nat)
    (hl : lookup m.menuItems id = some a) :
    (update P a (modifyItem a g m)).WF ∧
    (update P a (modifyItem a g m)).menuItems = m.menuItems := by
  obtain ⟨it, hit, hid⟩ := hwf id a hl
  obtain ⟨h1, _, h3⟩ := update_modifyItem P a g m it hit
  have hlt : a < m.heap.length := by
    by_contra hc
    rw [List.getElem?_eq_none (by omega)] at hit
    cases hit
  refine ⟨WF_step m _ hwf a (g it) h3 (by simp [h1, List.getElem?_set, hlt]) ?_, ?_⟩
  · intro j x hx
    rw [h1, List.getElem?_set]
    by_cases hj : a = j
    · subst hj
      rw [hit] at hx
      have hx' : it = x := Option.some.inj hx
      subst hx'
      exact ⟨g it, by simp [hlt], hg it⟩
    · exact ⟨x, by simp [hj, hx], rfl⟩
  · rw [h3, hg, hid]
    exact insert_of_lookup _ _ _ hl

/-- C10: each of `SetMenuItemTitleByID`, `EnableMenuItemByID`, `DisableMenuItemByID`,
`CheckMenuItemByID` and `UncheckMenuItemByID` returns true if and only if the id is
in the registry; on false the whole menu state (registry, every item, id counter) is
unchanged; on true the item registered under the id has exactly the targeted field
set to the new value (title / disabled=false / disabled=true / checked=true /
checked=false), its id, parent and every other field as before, every other item is
unchanged, and so is the id counter. -/
theorem C10_byID {L : Type} (P : Platform L) (m : Menu L) (id : Nat) (title : String) :
    ByIDContract m id (fun i => { i with title := title }) (SetMenuItemTitleByID P id title m) ∧
    ByIDContract m id (fun i => { i with disabled := false }) (EnableMenuItemByID P id m) ∧
    ByIDContract m id (fun i => { i with disabled := true }) (DisableMenuItemByID P id m) ∧
    ByIDContract m id (fun i => { i with checked := true }) (CheckMenuItemByID P id m) ∧
    ByIDContract m id (fun i => { i with checked := false }) (UncheckMenuItemByID P id m) :=
  ⟨byID_contract P _ m id, byID_contract P _ m id, byID_contract P _ m id,
   byID_contract P _ m id, byID_contract P _ m id⟩

/-- C10, witness: one item "One" with id 1; `SetMenuItemTitleByID(1, "Uno")` finds it
and `EnableMenuItemByID(2)` does not. -/
theorem C10_byID_witness :
    ((SetMenuItemTitleByID logPlatform 1 "Uno"
        (AddMenuItem logPlatform "One" "" (Menu.init [])).1).2 = true ∧
      (SetMenuItemTitleByID logPlatform 1 "Uno"
        (AddMenuItem logPlatform "One" "" (Menu.init [])).1).1.heap
        = (AddMenuItem logPlatform "One" "" (Menu.init [])).1.heap.set 0
            { click := none, id := 1, title := "Uno", tooltip := "", shortcutKey := "",
              disabled := false, checked := false, isCheckable := false, parent := none }) ∧
    ((EnableMenuItemByID logPlatform 2
        (AddMenuItem logPlatform "One" "" (Menu.init [])).1).2 = false →
      (EnableMenuItemByID logPlatform 2 (AddMenuItem logPlatform "One" "" (Menu.init [])).1).1
        = (AddMenuItem logPlatform "One" "" (Menu.init [])).1) :=
  ⟨⟨((C10_byID logPlatform (AddMenuItem logPlatform "One" "" (Menu.init [])).1 1 "Uno").1.2.2
      0 { click := none, id := 1, title := "One", tooltip := "", shortcutKey := "",
          disabled := false, checked := false, isCheckable := false, parent := none }
      rfl rfl).1,
    ((C10_byID logPlatform (AddMenuItem logPlatform "One" "" (Menu.init [])).1 1 "Uno").1.2.2
      0 { click := none, id := 1, title := "One", tooltip := "", shortcutKey := "",
          disabled := false, checked := false, isCheckable := false, parent := none }
      rfl rfl).2.1⟩,
   (C10_byID logPlatform (AddMenuItem logPlatform "One" "" (Menu.init [])).1 2 "").2.1.2.1⟩

/-- C9: `Systray_MenuItem_SetTitle(id, title)` returns 1 if and only if `running` is
true, `title` is non-null and `id` is in the item registry, and in that case the
title of the item registered under the id becomes the given string, every other item
staying as it is; in every other case it returns 0 and changes nothing (for example
an id that is not in the registry, such as 9999 when no item 9999 exists, gives 0). -/
theorem C9_MenuItem_SetTitle {L : Type} (P : Platform L) (w : World L) (id : Nat)
    (title : Option String) :
    ((Systray_MenuItem_SetTitle P id title w).2 = 1 ↔
      w.running = true ∧ (∃ t, title = some t) ∧ ∃ a, lookup w.menu.menuItems id = some a) ∧
    ((Systray_MenuItem_SetTitle P id title w).2 ≠ 1 →
      Systray_MenuItem_SetTitle P id title w = (w, 0)) ∧
    (∀ t a it, w.running = true → title = some t → lookup w.menu.menuItems id = some a →
      w.menu.heap[a]? = some it →
      (Systray_MenuItem_SetTitle P id title w).2 = 1 ∧
      (Systray_MenuItem_SetTitle P id title w).1.menu.heap
        = w.menu.heap.set a { it with title := t }) ∧
    (lookup w.menu.menuItems 9999 = none →
      ∀ t, Systray_MenuItem_SetTitle P 9999 t w = (w, 0)) := by
  have hmiss : ∀ (i : Nat) (t : Option String), lookup w.menu.menuItems i = none →
      Systray_MenuItem_SetTitle P i t w = (w, 0) := by
    intro i t hl
    unfold Systray_MenuItem_SetTitle
    split_ifs with hr
    · rfl
    · cases t with
      | none => rfl
      | some t =>
        simp only [SetMenuItemTitleByID, getMenuItem, hl]
        rfl
  refine ⟨?_, ?_, ?_, fun h t => hmiss 9999 t h⟩
  · unfold Systray_MenuItem_SetTitle SetMenuItemTitleByID getMenuItem
    cases hr : w.running <;> cases title <;> cases hl : lookup w.menu.menuItems id <;> simp
  · intro hne
    cases hr : w.running with
    | false => simp [Systray_MenuItem_SetTitle, hr]
    | true =>
      cases title with
      | none => simp [Systray_MenuItem_SetTitle, hr]
      | some t =>
        cases hl : lookup w.menu.menuItems id with
        | none => exact hmiss id _ hl
        | some a =>
          exfalso
          apply hne
          simp [Systray_MenuItem_SetTitle, SetMenuItemTitleByID, getMenuItem, hr, hl]
  · intro t a it hr ht hl hit
    subst ht
    obtain ⟨h1, _, _⟩ := update_modifyItem P a (fun i => { i with title := t }) w.menu it hit
    simp [Systray_MenuItem_SetTitle, SetMenuItemTitleByID, getMenuItem, SetTitle, hr, hl, h1]

/-- C9, witness: after `Systray_AddMenuItem("One", "")` and with `running` set,
`Systray_MenuItem_SetTitle(1, "Uno")` returns 1 and `Systray_MenuItem_SetTitle(9999, "x")`
returns 0 and changes nothing. -/
theorem C9_MenuItem_SetTitle_witness :
    (Systray_MenuItem_SetTitle logPlatform 1 (some "Uno")
      { (Systray_AddMenuItem logPlatform (some "One") none (World.init [])).1 with
        running := true }).2 = 1 ∧
    (Systray_MenuItem_SetTitle logPlatform 1 (some "Uno")
      { (Systray_AddMenuItem logPlatform (some "One") none (World.init [])).1 with
        running := true }).1.menu.heap
      = [{ click := none, id := 1, title := "Uno", tooltip := "", shortcutKey := "",
           disabled := false, checked := false, isCheckable := false, parent := none }] ∧
    ∀ t, Systray_MenuItem_SetTitle logPlatform 9999 t
      { (Systray_AddMenuItem logPlatform (some "One") none (World.init [])).1 with
        running := true }
      = ({ (Systray_AddMenuItem logPlatform (some "One") none (World.init [])).1 with
        running := true }, 0) :=
  ⟨((C9_MenuItem_SetTitle logPlatform
      { (Systray_AddMenuItem logPlatform (some "One") none (World.init [])).1 with
        running := true } 1 (some "Uno")).2.2.1 "Uno" 0
      { click := none, id := 1, title := "One", tooltip := "", shortcutKey := "",
        disabled := false, checked := false, isCheckable := false, parent := none }
      rfl rfl rfl rfl).1,
   ((C9_MenuItem_SetTitle logPlatform
      { (Systray_AddMenuItem logPlatform (some "One") none (World.init [])).1 with
        running := true } 1 (some "Uno")).2.2.1 "Uno" 0
      { click := none, id := 1, title := "One", tooltip := "", shortcutKey := "",
        disabled := false, checked := false, isCheckable := false, parent := none }
      rfl rfl rfl rfl).2,
   (C9_MenuItem_SetTitle logPlatform
      { (Systray_AddMenuItem logPlatform (some "One") none (World.init [])).1 with
        running := true } 9999 none).2.2.2 rfl⟩

/-! ## Sub-items added by id -/

section SubByID

variable {L : Type} (P : Platform L)

/-- The result of `AddSubMenuItemByID` when the parent id is registered. -/
theorem AddSubMenuItemByID_found (m : Menu L) (parentID p : Nat) (title tooltip : String)
    (hp : lookup m.menuItems parentID = some p) :
    AddSubMenuItemByID P parentID title tooltip m =
      ({ heap := m.heap ++ [{ click := none, id := addUint32 m.currentID 1, title := title,
                              tooltip := tooltip, shortcutKey := "", disabled := false,
                              checked := false, isCheckable := false, parent := some p }],
         menuItems := insert m.menuItems (addUint32 m.currentID 1) m.heap.length,
         currentID := addUint32 m.currentID 1,
         layout := P.addOrUpdateMenuItem
           (m.heap ++ [{ click := none, id := addUint32 m.currentID 1, title := title,
                         tooltip := tooltip, shortcutKey := "", disabled := false,
                         checked := false, isCheckable := false, parent := some p }])
           m.heap.length m.layout },
       addUint32 m.currentID 1) := by
  simp [AddSubMenuItemByID, getMenuItem, hp, AddSubMenuItem, newMenuItem, update, ID]

/-- The state and result of `AddSubMenuItemByID` when the parent id is not registered. -/
theorem AddSubMenuItemByID_missing (m : Menu L) (parentID : Nat) (title tooltip : String)
    (hp : lookup m.menuItems parentID = none) :
    AddSubMenuItemByID P parentID title tooltip m = (m, 0) := by
  simp [AddSubMenuItemByID, getMenuItem, hp]

end SubByID

/-- C11 (as amended): while the id counter is below `2 ^ 32 - 1`,
`AddSubMenuItemByID(parentID, title, tooltip)` returns 0 exactly when `parentID` is
not in the registry, and then consumes no id and leaves the whole menu state
unchanged; otherwise it returns the next id of the counter, which is not 0 (and is
not registered before, when no registered id is above the counter), and the registry
then maps that id to a newly allocated item with the given title and tooltip,
enabled, unchecked, not checkable, whose parent is the item registered under
`parentID`; the items allocated before are unchanged. -/
theorem C11_AddSubMenuItemByID {L : Type} (P : Platform L) (m : Menu L) (parentID : Nat)
    (title tooltip : String) (hroom : m.currentID + 1 < 2 ^ 32) :
    ((AddSubMenuItemByID P parentID title tooltip m).2 = 0 ↔
      lookup m.menuItems parentID = none) ∧
    (lookup m.menuItems parentID = none →
      AddSubMenuItemByID P parentID title tooltip m = (m, 0)) ∧
    (∀ p, lookup m.menuItems parentID = some p →
      (AddSubMenuItemByID P parentID title tooltip m).2 = m.currentID + 1 ∧
      (AddSubMenuItemByID P parentID title tooltip m).2 ≠ 0 ∧
      (AddSubMenuItemByID P parentID title tooltip m).1.currentID = m.currentID + 1 ∧
      ((∀ id a, lookup m.menuItems id = some a → id ≤ m.currentID) →
        lookup m.menuItems (m.currentID + 1) = none) ∧
      lookup (AddSubMenuItemByID P parentID title tooltip m).1.menuItems (m.currentID + 1)
        = some m.heap.length ∧
      (AddSubMenuItemByID P parentID title tooltip m).1.heap
        = m.heap ++ [{ click := none, id := m.currentID + 1, title := title,
                       tooltip := tooltip, shortcutKey := "", disabled := false,
                       checked := false, isCheckable := false, parent := some p }]) := by
  have hid : addUint32 m.currentID 1 = m.currentID + 1 := by
    unfold addUint32
    exact Nat.mod_eq_of_lt hroom
  refine ⟨?_, AddSubMenuItemByID_missing P m parentID title tooltip, ?_⟩
  · cases hp : lookup m.menuItems parentID with
    | none => simp [AddSubMenuItemByID_missing P m parentID title tooltip hp]
    | some p => simp [AddSubMenuItemByID_found P m parentID p title tooltip hp, hid]
  · intro p hp
    rw [AddSubMenuItemByID_found P m parentID p title tooltip hp, hid]
    refine ⟨rfl, by simp, rfl, ?_, ?_, rfl⟩
    · intro hle
      cases hl : lookup m.menuItems (m.currentID + 1) with
      | none => rfl
      | some a =>
        have := hle _ _ hl
        omega
    · simp [lookup_insert]

/-- C11, witness: a sub-item added under the item with id 1. -/
theorem C11_AddSubMenuItemByID_witness :
    (AddSubMenuItemByID logPlatform 1 "Sub" "tip"
      (AddMenuItem logPlatform "One" "" (Menu.init [])).1).2 = 2 ∧
    (AddSubMenuItemByID logPlatform 1 "Sub" "tip"
      (AddMenuItem logPlatform "One" "" (Menu.init [])).1).1.heap
      = (AddMenuItem logPlatform "One" "" (Menu.init [])).1.heap ++
          [{ click := none, id := 2, title := "Sub", tooltip := "tip", shortcutKey := "",
             disabled := false, checked := false, isCheckable := false, parent := some 0 }] ∧
    ((AddSubMenuItemByID logPlatform 7 "Sub" "tip"
      (AddMenuItem logPlatform "One" "" (Menu.init [])).1).2 = 0 ↔
      lookup (AddMenuItem logPlatform "One" "" (Menu.init [])).1.menuItems 7 = none) :=
  ⟨((C11_AddSubMenuItemByID logPlatform (AddMenuItem logPlatform "One" "" (Menu.init [])).1
      1 "Sub" "tip" (by decide)).2.2 0 rfl).1,
   ((C11_AddSubMenuItemByID logPlatform (AddMenuItem logPlatform "One" "" (Menu.init [])).1
      1 "Sub" "tip" (by decide)).2.2 0 rfl).2.2.2.2.2,
   (C11_AddSubMenuItemByID logPlatform (AddMenuItem logPlatform "One" "" (Menu.init [])).1
      7 "Sub" "tip" (by decide)).1⟩

/-- After `n` further `AddSeparator` calls the counter has advanced by `n`, modulo
`2 ^ 32`, and the items and the registry are as before. -/
theorem reachable_addSeparators {L : Type} (P : Platform L) (n : Nat) (m : Menu L)
    (hm : Reachable P m) (hc : m.currentID < 2 ^ 32) :
    ∃ l, Reachable P { m with currentID := (m.currentID + n) % 2 ^ 32, layout := l } := by
  induction n with
  | zero =>
    refine ⟨m.layout, ?_⟩
    rw [Nat.add_zero, Nat.mod_eq_of_lt hc]
    exact hm
  | succ n ih =>
    obtain ⟨l, hl⟩ := ih
    have hstep := Reachable.step (P := P) (Step.create AddOp.addSeparator) hl rfl
    refine ⟨P.addSeparator (addUint32 ((m.currentID + n) % 2 ^ 32) 1) l, ?_⟩
    have e : (m.currentID + (n + 1)) % 2 ^ 32 = addUint32 ((m.currentID + n) % 2 ^ 32) 1 := by
      unfold addUint32
      omega
    rw [e]
    exact hstep

/-- C11, counterexample to the claim as stated: after `AddMenuItem("One", "")` and
`2 ^ 32 - 2` calls of `AddSeparator` the item "One" is registered under id 1 and the
counter is at `2 ^ 32 - 1`; then `AddSubMenuItemByID(1, "Sub", "")` finds the parent,
allocates the sub-item and returns 0, the counter having wrapped around. -/
theorem C11_counterexample :
    ∃ l : List String,
      Reachable logPlatform
        { heap := [{ click := none, id := 1, title := "One", tooltip := "", shortcutKey := "",
                     disabled := false, checked := false, isCheckable := false,
                     parent := none }],
          menuItems := [(1, 0)], currentID := 2 ^ 32 - 1, layout := l } ∧
      lookup [(1, 0)] 1 = some 0 ∧
      (AddSubMenuItemByID logPlatform 1 "Sub" ""
        { heap := [{ click := none, id := 1, title := "One", tooltip := "", shortcutKey := "",
                     disabled := false, checked := false, isCheckable := false,
                     parent := none }],
          menuItems := [(1, 0)], currentID := 2 ^ 32 - 1, layout := l }).2 = 0 ∧
      (AddSubMenuItemByID logPlatform 1 "Sub" ""
        { heap := [{ click := none, id := 1, title := "One", tooltip := "", shortcutKey := "",
                     disabled := false, checked := false, isCheckable := false,
                     parent := none }],
          menuItems := [(1, 0)], currentID := 2 ^ 32 - 1, layout := l }).1.heap.length = 2 := by
  have h1 : Reachable logPlatform (AddMenuItem logPlatform "One" "" (Menu.init [])).1 :=
    Reachable.step (P := logPlatform) (Step.create (AddOp.addMenuItem "One" ""))
      (Reachable.init []) rfl
  obtain ⟨l, hl⟩ := reachable_addSeparators logPlatform (2 ^ 32 - 2) _ h1 (by decide)
  refine ⟨l, hl, rfl, ?_, ?_⟩
  · rw [AddSubMenuItemByID_found logPlatform _ 1 0 "Sub" "" (by rfl)]
    simp [addUint32]
  · rw [AddSubMenuItemByID_found logPlatform _ 1 0 "Sub" "" (by rfl)]
    rfl

/-! ## Selection dispatch -/

/-- C12: for every id in the registry (registered to the item `item`),
`systrayMenuItemSelected(id)` calls the click function stored in the item, when one
is set, exactly once, and then the function registered with `SetOnMenuItemSelected`,
when one is set, exactly once with that same id, and makes no other call; for every
id that is not in the registry it calls neither and returns. -/
theorem C12_dispatch {L : Type} (w : World L) (id : Nat) :
    (lookup w.menu.menuItems id = none → systrayMenuItemSelected id w = []) ∧
    (∀ a item, lookup w.menu.menuItems id = some a → w.menu.heap[a]? = some item →
      (∀ f g, item.click = some f → w.menuItemSelected = some g →
        systrayMenuItemSelected id w = [SelCall.click f, SelCall.menuItemSelected g id]) ∧
      (∀ f, item.click = some f → w.menuItemSelected = none →
        systrayMenuItemSelected id w = [SelCall.click f]) ∧
      (∀ g, item.click = none → w.menuItemSelected = some g →
        systrayMenuItemSelected id w = [SelCall.menuItemSelected g id]) ∧
      (item.click = none → w.menuItemSelected = none →
        systrayMenuItemSelected id w = [])) := by
  refine ⟨?_, ?_⟩
  · intro h
    simp [systrayMenuItemSelected, h]
  · intro a item ha hitem
    refine ⟨?_, ?_, ?_, ?_⟩
    · intro f g hf hg
      simp [systrayMenuItemSelected, ha, hitem, hf, hg]
    · intro f hf hg
      simp [systrayMenuItemSelected, ha, hitem, hf, hg]
    · intro g hf hg
      simp [systrayMenuItemSelected, ha, hitem, hf, hg]
    · intro hf hg
      simp [systrayMenuItemSelected, ha, hitem, hf, hg]

/-- C12, witness: the item "One" with the click function 5, and the function 9
registered with `SetOnMenuItemSelected`; the ids 1 and 2 are selected. -/
theorem C12_dispatch_witness :
    systrayMenuItemSelected 1
      (SetOnMenuItemSelected (some (SelFn.host 9))
        { World.init ([] : List String) with
          menu := Click 0 (some 5) (AddMenuItem logPlatform "One" "" (Menu.init [])).1 })
      = [SelCall.click 5, SelCall.menuItemSelected (SelFn.host 9) 1] ∧
    systrayMenuItemSelected 2
      (SetOnMenuItemSelected (some (SelFn.host 9))
        { World.init ([] : List String) with
          menu := Click 0 (some 5) (AddMenuItem logPlatform "One" "" (Menu.init [])).1 })
      = [] :=
  ⟨((C12_dispatch
      (SetOnMenuItemSelected (some (SelFn.host 9))
        { World.init ([] : List String) with
          menu := Click 0 (some 5) (AddMenuItem logPlatform "One" "" (Menu.init [])).1 })
      1).2 0
      { click := some 5, id := 1, title := "One", tooltip := "", shortcutKey := "",
        disabled := false, checked := false, isCheckable := false, parent := none }
      rfl rfl).1 5 (SelFn.host 9) rfl rfl,
   (C12_dispatch
      (SetOnMenuItemSelected (some (SelFn.host 9))
        { World.init ([] : List String) with
          menu := Click 0 (some 5) (AddMenuItem logPlatform "One" "" (Menu.init [])).1 })
      2).1 rfl⟩

/-- C13, the code at the failing input: the item "One" (id 1) is given the click
function 5 and is disabled with `DisableMenuItemByID(1)`, and the function 9 is
registered with `SetOnMenuItemSelected`. The item is registered and its `disabled`
flag is true, and `systrayMenuItemSelected(1)` calls both functions. -/
theorem C13_disabled_item_dispatches :
    (DisableMenuItemByID logPlatform 1
      (Click 0 (some 5) (AddMenuItem logPlatform "One" "" (Menu.init [])).1)).1.heap
      = [{ click := some 5, id := 1, title := "One", tooltip := "", shortcutKey := "",
           disabled := true, checked := false, isCheckable := false, parent := none }] ∧
    lookup (DisableMenuItemByID logPlatform 1
      (Click 0 (some 5) (AddMenuItem logPlatform "One" "" (Menu.init [])).1)).1.menuItems 1
      = some 0 ∧
    systrayMenuItemSelected 1
      (SetOnMenuItemSelected (some (SelFn.host 9))
        { World.init ([] : List String) with
          menu := (DisableMenuItemByID logPlatform 1
            (Click 0 (some 5) (AddMenuItem logPlatform "One" "" (Menu.init [])).1)).1 })
      = [SelCall.click 5, SelCall.menuItemSelected (SelFn.host 9) 1] := by
  decide

/-- The dispatch does not read the `disabled` flag: it makes the same calls
whatever the flag of the item is. -/
theorem dispatch_ignores_disabled {L : Type} (w : World L) (id a : Nat) (item : MenuItem)
    (flag : Bool) (ha : lookup w.menu.menuItems id = some a)
    (hitem : w.menu.heap[a]? = some item) :
    systrayMenuItemSelected id
        { w with menu := modifyItem a (fun i => { i with disabled := flag }) w.menu }
      = systrayMenuItemSelected id w := by
  have hlt : a < w.menu.heap.length := by
    by_contra hc
    rw [List.getElem?_eq_none (by omega)] at hitem
    cases hitem
  simp [systrayMenuItemSelected, modifyItem, ha, hitem, List.getElem?_set, hlt]

/-! ## Handlers of the SNI methods -/

/-- C14 (as amended): for each of `ContextMenu`, `SecondaryActivate` and `Scroll`, the
call returns the DBus UnknownMethod error if and only if its handler is not
registered (and then calls nothing), and otherwise calls the handler exactly once
with the arguments of the call and returns no error. `Activate` returns UnknownMethod
if and only if no single-click handler is registered and the call does not fire a
registered double-click handler: a call classified as a double-click (last activate
time not 0 and less than the interval ago) with a double-click handler registered
calls that handler and returns no error. -/
theorem C14_unknownMethod (c : Clicks) (now x y delta : Int) (orientation : String) :
    (((ContextMenu x y c).2.err = some DBusError.unknownMethod ↔ c.usni.contextMenu = none) ∧
      (c.usni.contextMenu = none → (ContextMenu x y c).2.calls = []) ∧
      (∀ f, c.usni.contextMenu = some f →
        (ContextMenu x y c).2 = ⟨[Call.contextMenu f x y], none⟩)) ∧
    (((SecondaryActivate x y c).2.err = some DBusError.unknownMethod ↔
        c.usni.secondaryActivate = none) ∧
      (c.usni.secondaryActivate = none → (SecondaryActivate x y c).2.calls = []) ∧
      (∀ f, c.usni.secondaryActivate = some f →
        (SecondaryActivate x y c).2 = ⟨[Call.secondaryActivate f x y], none⟩)) ∧
    (((Scroll delta orientation c).2.err = some DBusError.unknownMethod ↔
        c.usni.scroll = none) ∧
      (c.usni.scroll = none → (Scroll delta orientation c).2.calls = []) ∧
      (∀ f, c.usni.scroll = some f →
        (Scroll delta orientation c).2 = ⟨[Call.scroll f delta orientation], none⟩)) ∧
    ((Activate now x y c).2.err = some DBusError.unknownMethod ↔
      c.usni.activate = none ∧
      ¬ (c.usni.dActivateTime ≠ 0 ∧
         subInt64 now c.usni.dActivateTime < c.dClickTimeMinInterval ∧
         c.usni.dActivate ≠ none)) := by
  refine ⟨⟨?_, ?_, ?_⟩, ⟨?_, ?_, ?_⟩, ⟨?_, ?_, ?_⟩, ?_⟩
  · unfold ContextMenu
    cases h : c.usni.contextMenu <;> simp [h]
  · intro h
    simp [ContextMenu, h]
  · intro f h
    simp [ContextMenu, h]
  · unfold SecondaryActivate
    cases h : c.usni.secondaryActivate <;> simp [h]
  · intro h
    simp [SecondaryActivate, h]
  · intro f h
    simp [SecondaryActivate, h]
  · unfold Scroll
    cases h : c.usni.scroll <;> simp [h]
  · intro h
    simp [Scroll, h]
  · intro f h
    simp [Scroll, h]
  · unfold Activate activateTail
    by_cases h0 : c.usni.dActivateTime = 0
    · cases ha : c.usni.activate <;> simp [h0, ha]
    · by_cases hlt : subInt64 now c.usni.dActivateTime < c.dClickTimeMinInterval
      · cases hd : c.usni.dActivate <;> cases ha : c.usni.activate <;>
          simp [h0, hlt, hd, ha]
      · cases ha : c.usni.activate <;> simp [h0, hlt, ha]

/-- C14, counterexample to the claim as stated: interval 500, a double-click handler
registered and no single-click handler; `Activate` at 1000 returns UnknownMethod, and
the `Activate` at 1100, with still no single-click handler registered, returns no
error. -/
theorem C14_counterexample :
    (setOnDClick (.host 2) Clicks.init).usni.activate = none ∧
    (Activate 1000 0 0 (setOnDClick (.host 2) Clicks.init)).2.err
      = some DBusError.unknownMethod ∧
    (Activate 1000 0 0 (setOnDClick (.host 2) Clicks.init)).1.usni.activate = none ∧
    (Activate 1100 1 2 (Activate 1000 0 0 (setOnDClick (.host 2) Clicks.init)).1).2.err
      = none := by
  decide

/-- C15 (as amended): `SetOnRClick` registers nothing (`setOnRClick` has an empty
body; the library documents right-click as not supported on Linux), so it leaves the
state as it is. No function of the sources sets the handlers of `ContextMenu` and
`SecondaryActivate`: in a state in which they are not set, as at program start, and
also after `SetOnRClick` or `Systray_InitCallbacks` with the onRClick of the host,
`SecondaryActivate(x, y)` records `(x, y)`, calls no handler and returns
UnknownMethod, and so does `ContextMenu(x, y)`. -/
theorem C15_rightClick {L : Type} (w : World L) (fn : MenuFn)
    (ready exit onClick onRClick onMenuItem : Option Nat) (x y : Int)
    (hc : w.clicks.usni.contextMenu = none) (hs : w.clicks.usni.secondaryActivate = none) :
    setOnRClick fn w.clicks = w.clicks ∧
    Clicks.init.usni.contextMenu = none ∧ Clicks.init.usni.secondaryActivate = none ∧
    (Systray_InitCallbacks ready exit onClick onRClick onMenuItem w).clicks.usni.contextMenu
      = none ∧
    (Systray_InitCallbacks ready exit onClick onRClick onMenuItem
      w).clicks.usni.secondaryActivate = none ∧
    (SecondaryActivate x y (setOnRClick fn w.clicks)).2 = ⟨[], some DBusError.unknownMethod⟩ ∧
    GetLastClickXY (SecondaryActivate x y (setOnRClick fn w.clicks)).1 = (x, y) ∧
    (ContextMenu x y (setOnRClick fn w.clicks)).2 = ⟨[], some DBusError.unknownMethod⟩ ∧
    GetLastClickXY (ContextMenu x y (setOnRClick fn w.clicks)).1 = (x, y) ∧
    (SecondaryActivate x y
      (Systray_InitCallbacks ready exit onClick onRClick onMenuItem w).clicks).2
      = ⟨[], some DBusError.unknownMethod⟩ ∧
    (ContextMenu x y
      (Systray_InitCallbacks ready exit onClick onRClick onMenuItem w).clicks).2
      = ⟨[], some DBusError.unknownMethod⟩ := by
  refine ⟨rfl, rfl, rfl, ?_, ?_, ?_, ?_, ?_, ?_, ?_, ?_⟩
  · simp [Systray_InitCallbacks, setOnClick, setOnDClick, setOnRClick, hc]
  · simp [Systray_InitCallbacks, setOnClick, setOnDClick, setOnRClick, hs]
  · simp [SecondaryActivate, setOnRClick, hs]
  · simp [SecondaryActivate, setOnRClick, hs, GetLastClickXY]
  · simp [ContextMenu, setOnRClick, hc]
  · simp [ContextMenu, setOnRClick, hc, GetLastClickXY]
  · simp [SecondaryActivate, Systray_InitCallbacks, setOnClick, setOnDClick, setOnRClick, hs]
  · simp [ContextMenu, Systray_InitCallbacks, setOnClick, setOnDClick, setOnRClick, hc]

/-- C15, witness: the state at program start, and `Systray_InitCallbacks` with the
C function 4 as onRClick. -/
theorem C15_rightClick_witness :
    (SecondaryActivate 3 4
      (Systray_InitCallbacks (some 1) (some 2) (some 3) (some 4) (some 5)
        (World.init ([] : List String))).clicks).2
      = ⟨[], some DBusError.unknownMethod⟩ ∧
    (ContextMenu 3 4
      (Systray_InitCallbacks (some 1) (some 2) (some 3) (some 4) (some 5)
        (World.init ([] : List String))).clicks).2
      = ⟨[], some DBusError.unknownMethod⟩ :=
  ⟨(C15_rightClick (World.init ([] : List String)) MenuFn.callOnRClick
      (some 1) (some 2) (some 3) (some 4) (some 5) 3 4 rfl rfl).2.2.2.2.2.2.2.2.2.1,
   (C15_rightClick (World.init ([] : List String)) MenuFn.callOnRClick
      (some 1) (some 2) (some 3) (some 4) (some 5) 3 4 rfl rfl).2.2.2.2.2.2.2.2.2.2⟩

/-- C15, counterexample to the claim as stated: after `SetOnRClick` with the function
7 on the state at program start, `SecondaryActivate(3, 4)` and `ContextMenu(3, 4)`
call no handler and return UnknownMethod. -/
theorem C15_counterexample :
    SecondaryActivate 3 4 (setOnRClick (MenuFn.host 7) Clicks.init)
      = ({ Clicks.init with lastClickX := 3, lastClickY := 4 },
         ⟨[], some DBusError.unknownMethod⟩) ∧
    ContextMenu 3 4 (setOnRClick (MenuFn.host 7) Clicks.init)
      = ({ Clicks.init with lastClickX := 3, lastClickY := 4 },
         ⟨[], some DBusError.unknownMethod⟩) := by
  decide

/-! ## The click callback of the host -/

/-- `Activate` leaves the handlers as they are. -/
theorem Activate_handlers (c : Clicks) (now x y : Int) :
    (Activate now x y c).1.usni.activate = c.usni.activate ∧
    (Activate now x y c).1.usni.dActivate = c.usni.dActivate := by
  unfold Activate activateTail
  by_cases h0 : c.usni.dActivateTime = 0
  · cases ha : c.usni.activate <;> simp [h0, ha]
  · by_cases hlt : subInt64 now c.usni.dActivateTime < c.dClickTimeMinInterval
    · cases hd : c.usni.dActivate <;> cases ha : c.usni.activate <;> simp [h0, hlt, hd, ha]
    · cases ha : c.usni.activate <;> simp [h0, hlt, ha]

/-- With both handlers registered, `Activate` calls exactly one of them, with the
coordinates of the call, and returns no error. -/
theorem Activate_reply (c : Clicks) (now x y : Int) (f g : XYFn)
    (hf : c.usni.activate = some f) (hg : c.usni.dActivate = some g) :
    (Activate now x y c).2 = ⟨[Call.activate f x y], none⟩ ∨
    (Activate now x y c).2 = ⟨[Call.dActivate g x y], none⟩ := by
  unfold Activate activateTail
  by_cases h0 : c.usni.dActivateTime = 0
  · simp [h0, hf]
  · by_cases hlt : subInt64 now c.usni.dActivateTime < c.dClickTimeMinInterval
    · simp [h0, hlt, hg]
    · simp [h0, hlt, hf]

/-- Every reply of a sequence of `Activate` calls on a state with both handlers
registered. -/
theorem activateSeq_replies (evs : List (Int × Int × Int)) (c : Clicks) (f g : XYFn)
    (hf : c.usni.activate = some f) (hg : c.usni.dActivate = some g) :
    ∀ r ∈ (activateSeq evs c).2, r.err = none ∧
      ∃ x y, r.calls = [Call.activate f x y] ∨ r.calls = [Call.dActivate g x y] := by
  induction evs generalizing c with
  | nil => intro r hr; simp [activateSeq] at hr
  | cons e rest ih =>
    obtain ⟨now, x, y⟩ := e
    intro r hr
    simp only [activateSeq, List.mem_cons] at hr
    rcases hr with hr | hr
    · subst hr
      rcases Activate_reply c now x y f g hf hg with h | h
      · rw [h]; exact ⟨rfl, x, y, Or.inl rfl⟩
      · rw [h]; exact ⟨rfl, x, y, Or.inr rfl⟩
    · obtain ⟨h1, h2⟩ := Activate_handlers c now x y
      exact ih (Activate now x y c).1 (h1.trans hf) (h2.trans hg) r hr

/-- C20: after `Systray_InitCallbacks`, every `Activate` call (of any sequence of
them, at any clock values and coordinates) returns no error, so never UnknownMethod,
and makes exactly one handler call, of the single-click or of the double-click
handler; either handler is the closure around `func(menu) { C.call_void(cbOnClick) }`,
so the call reaches the host as one call of its onClick callback and nothing else
(no call when the host passed `NULL`): the host receives the same event for both. -/
theorem C20_activate_onClick {L : Type} (w0 : World L)
    (ready exit onClick onRClick onMenuItem : Option Nat) (evs : List (Int × Int × Int)) :
    (Systray_InitCallbacks ready exit onClick onRClick onMenuItem w0).clicks.usni.activate
      = some (XYFn.callMenuFn MenuFn.callOnClick) ∧
    (Systray_InitCallbacks ready exit onClick onRClick onMenuItem w0).clicks.usni.dActivate
      = some (XYFn.callMenuFn MenuFn.callOnClick) ∧
    (∀ r ∈ (activateSeq evs
        (Systray_InitCallbacks ready exit onClick onRClick onMenuItem w0).clicks).2,
      r.err = none ∧
      ∃ call, r.calls = [call] ∧
        (∃ x y, call = Call.activate (XYFn.callMenuFn MenuFn.callOnClick) x y ∨
                call = Call.dActivate (XYFn.callMenuFn MenuFn.callOnClick) x y) ∧
        runCall (Systray_InitCallbacks ready exit onClick onRClick onMenuItem w0) call
          = call_void onClick ∧
        (∀ f, onClick = some f →
          runCall (Systray_InitCallbacks ready exit onClick onRClick onMenuItem w0) call
            = [HostCall.cVoid f])) := by
  have hf : (Systray_InitCallbacks ready exit onClick onRClick onMenuItem
      w0).clicks.usni.activate = some (XYFn.callMenuFn MenuFn.callOnClick) := by
    simp [Systray_InitCallbacks, setOnClick, setOnDClick, setOnRClick]
  have hg : (Systray_InitCallbacks ready exit onClick onRClick onMenuItem
      w0).clicks.usni.dActivate = some (XYFn.callMenuFn MenuFn.callOnClick) := by
    simp [Systray_InitCallbacks, setOnClick, setOnDClick, setOnRClick]
  have hcb : (Systray_InitCallbacks ready exit onClick onRClick onMenuItem w0).cbOnClick
      = onClick := by
    simp [Systray_InitCallbacks]
  refine ⟨hf, hg, ?_⟩
  intro r hr
  obtain ⟨herr, x, y, hcalls⟩ := activateSeq_replies evs _ _ _ hf hg r hr
  refine ⟨herr, ?_⟩
  rcases hcalls with h | h
  · refine ⟨_, h, ⟨x, y, Or.inl rfl⟩, ?_, ?_⟩
    · simp [runCall, runXYFn, runMenuFn, hcb]
    · intro f hfo
      simp only [runCall, runXYFn, runMenuFn, hcb]
      rw [hfo]
      rfl
  · refine ⟨_, h, ⟨x, y, Or.inr rfl⟩, ?_, ?_⟩
    · simp [runCall, runXYFn, runMenuFn, hcb]
    · intro f hfo
      simp only [runCall, runXYFn, runMenuFn, hcb]
      rw [hfo]
      rfl

/-- C20, witness: after `Systray_InitCallbacks` with the C function 3 as onClick, a
single-click at 1000 and a double-click at 1100 each reach the host as one call of
the function 3. -/
theorem C20_activate_onClick_witness :
    (activateSeq [(1000, 1, 2), (1100, 1, 2)]
        (Systray_InitCallbacks (some 1) (some 2) (some 3) (some 4) (some 5)
          (World.init ([] : List String))).clicks).2
      = [⟨[Call.activate (XYFn.callMenuFn MenuFn.callOnClick) 1 2], none⟩,
         ⟨[Call.dActivate (XYFn.callMenuFn MenuFn.callOnClick) 1 2], none⟩] ∧
    (∀ r ∈ (activateSeq [(1000, 1, 2), (1100, 1, 2)]
        (Systray_InitCallbacks (some 1) (some 2) (some 3) (some 4) (some 5)
          (World.init ([] : List String))).clicks).2,
      r.err = none ∧
      ∃ call, r.calls = [call] ∧
        (∃ x y, call = Call.activate (XYFn.callMenuFn MenuFn.callOnClick) x y ∨
                call = Call.dActivate (XYFn.callMenuFn MenuFn.callOnClick) x y) ∧
        runCall (Systray_InitCallbacks (some 1) (some 2) (some 3) (some 4) (some 5)
          (World.init ([] : List String))) call = call_void (some 3) ∧
        (∀ f, some 3 = some f →
          runCall (Systray_InitCallbacks (some 1) (some 2) (some 3) (some 4) (some 5)
            (World.init ([] : List String))) call = [HostCall.cVoid f])) :=
  ⟨by decide,
   (C20_activate_onClick (World.init ([] : List String)) (some 1) (some 2) (some 3) (some 4)
      (some 5) [(1000, 1, 2), (1100, 1, 2)]).2.2⟩

/-! ## The parent links form a forest -/

section Forest

variable {L : Type} (P : Platform L)

theorem live_of_getElem? {heap : List MenuItem} {a : Nat} {item : MenuItem}
    (h : heap[a]? = some item) : a < heap.length := by
  by_contra hc
  rw [List.getElem?_eq_none (by omega)] at h
  cases h

theorem ParentsOlder_of_heap_eq (m m' : Menu L) (h : m.ParentsOlder) (he : m'.heap = m.heap) :
    m'.ParentsOlder := by
  intro a item ha p hp
  rw [he] at ha
  exact h a item ha p hp

/-- Writing fields of an item other than `parent` keeps the parents older. -/
theorem ParentsOlder_set (m m' : Menu L) (h : m.ParentsOlder) (a : Nat) (it x : MenuItem)
    (hit : m.heap[a]? = some it) (hx : x.parent = it.parent) (he : m'.heap = m.heap.set a x) :
    m'.ParentsOlder := by
  intro j item hj p hp
  rw [he, List.getElem?_set] at hj
  by_cases haj : a = j
  · subst haj
    rw [if_pos rfl, if_pos (live_of_getElem? hit)] at hj
    have hxi : x = item := Option.some.inj hj
    subst hxi
    exact h a it hit p (hx ▸ hp)
  · rw [if_neg haj] at hj
    exact h j item hj p hp

/-- Allocating an item whose parent, if any, is allocated keeps the parents older. -/
theorem ParentsOlder_append (m m' : Menu L) (h : m.ParentsOlder) (new : MenuItem)
    (hnew : ∀ p, new.parent = some p → p < m.heap.length) (he : m'.heap = m.heap ++ [new]) :
    m'.ParentsOlder := by
  intro j item hj p hp
  rw [he] at hj
  by_cases hlt : j < m.heap.length
  · rw [List.getElem?_append_left hlt] at hj
    exact h j item hj p hp
  · have hj' := live_of_getElem? hj
    simp only [List.length_append, List.length_singleton] at hj'
    have hje : j = m.heap.length := by omega
    subst hje
    simp only [List.getElem?_concat_length] at hj
    have hni : new = item := Option.some.inj hj
    subst hni
    exact hnew p hp

/-- The items after an item-creating operation. -/
theorem run_heap (op : AddOp) (m : Menu L) :
    (op.run P m).heap = m.heap ∨
    ∃ new, (op.run P m).heap = m.heap ++ [new] ∧
      (new.parent = none ∨
        ∃ item t tt, new.parent = some item ∧
          (op = AddOp.addSubMenuItem item t tt ∨
           ∃ c, op = AddOp.addSubMenuItemCheckbox item t tt c)) := by
  cases op with
  | addMenuItem t tt =>
    have e : (AddOp.run P (AddOp.addMenuItem t tt) m).heap = m.heap ++
        [{ click := none, id := addUint32 m.currentID 1, title := t, tooltip := tt,
           shortcutKey := "", disabled := false, checked := false, isCheckable := false,
           parent := none }] := by
      simp [AddOp.run, AddMenuItem, newMenuItem, update]
    exact Or.inr ⟨_, e, Or.inl rfl⟩
  | addMenuItemCheckbox t tt c =>
    have e : (AddOp.run P (AddOp.addMenuItemCheckbox t tt c) m).heap = m.heap ++
        [{ click := none, id := addUint32 m.currentID 1, title := t, tooltip := tt,
           shortcutKey := "", disabled := false, checked := c, isCheckable := true,
           parent := none }] := by
      simp [AddOp.run, AddMenuItemCheckbox, newMenuItem, update, modifyItem]
    exact Or.inr ⟨_, e, Or.inl rfl⟩
  | addSubMenuItem i t tt =>
    have e : (AddOp.run P (AddOp.addSubMenuItem i t tt) m).heap = m.heap ++
        [{ click := none, id := addUint32 m.currentID 1, title := t, tooltip := tt,
           shortcutKey := "", disabled := false, checked := false, isCheckable := false,
           parent := some i }] := by
      simp [AddOp.run, AddSubMenuItem, newMenuItem, update]
    exact Or.inr ⟨_, e, Or.inr ⟨i, t, tt, rfl, Or.inl rfl⟩⟩
  | addSubMenuItemCheckbox i t tt c =>
    have e : (AddOp.run P (AddOp.addSubMenuItemCheckbox i t tt c) m).heap = m.heap ++
        [{ click := none, id := addUint32 m.currentID 1, title := t, tooltip := tt,
           shortcutKey := "", disabled := false, checked := c, isCheckable := true,
           parent := some i }] := by
      simp [AddOp.run, AddSubMenuItemCheckbox, newMenuItem, update, modifyItem]
    exact Or.inr ⟨_, e, Or.inr ⟨i, t, tt, rfl, Or.inr ⟨c, rfl⟩⟩⟩
  | addSeparator => exact Or.inl rfl

/-- An item-creating operation whose receiver, if it has one, is allocated keeps the
registry well formed and the parents older. -/
theorem inv_create (op : AddOp) (m : Menu L) (hwf : m.WF) (hpo : m.ParentsOlder)
    (hlive : (Step.create op).receiverLive m = true) :
    (op.run P m).WF ∧ (op.run P m).ParentsOlder := by
  refine ⟨WF_run P op m hwf, ?_⟩
  rcases run_heap P op m with he | ⟨new, he, hnone | ⟨item, t, tt, hsome, hop | ⟨c, hop⟩⟩⟩
  · exact ParentsOlder_of_heap_eq m _ hpo he
  · exact ParentsOlder_append m _ hpo new (fun p hp => by rw [hnone] at hp; cases hp) he
  · subst hop
    refine ParentsOlder_append m _ hpo new (fun p hp => ?_) he
    rw [hsome] at hp
    cases hp
    simpa [Step.receiverLive] using hlive
  · subst hop
    refine ParentsOlder_append m _ hpo new (fun p hp => ?_) he
    rw [hsome] at hp
    cases hp
    simpa [Step.receiverLive] using hlive

/-- A change of an allocated item that keeps its id and its parent, followed by
`update`, keeps the registry well formed and the parents older. -/
theorem inv_update_modifyItem (a : Nat) (g : MenuItem → MenuItem)
    (hid : ∀ i, (g i).id = i.id) (hpar : ∀ i, (g i).parent = i.parent)
    (m : Menu L) (hwf : m.WF) (hpo : m.ParentsOlder) (ha : a < m.heap.length) :
    (update P a (modifyItem a g m)).WF ∧ (update P a (modifyItem a g m)).ParentsOlder := by
  obtain ⟨it, hit⟩ : ∃ it, m.heap[a]? = some it := ⟨m.heap[a], List.getElem?_eq_getElem ha⟩
  obtain ⟨h1, _, h3⟩ := update_modifyItem P a g m it hit
  refine ⟨WF_step m _ hwf a (g it) h3 (by simp [h1, List.getElem?_set, ha]) ?_,
    ParentsOlder_set m _ hpo a it (g it) hit (hpar it) h1⟩
  intro j x hx
  rw [h1, List.getElem?_set]
  by_cases hj : a = j
  · subst hj
    rw [hit] at hx
    have hx' : it = x := Option.some.inj hx
    subst hx'
    exact ⟨g it, by simp [ha], hid it⟩
  · exact ⟨x, by simp [hj, hx], rfl⟩

/-- A change of an allocated item that keeps its id and its parent keeps the registry
well formed and the parents older. -/
theorem inv_modifyItem (a : Nat) (g : MenuItem → MenuItem)
    (hid : ∀ i, (g i).id = i.id) (hpar : ∀ i, (g i).parent = i.parent)
    (m : Menu L) (hwf : m.WF) (hpo : m.ParentsOlder) (ha : a < m.heap.length) :
    (modifyItem a g m).WF ∧ (modifyItem a g m).ParentsOlder := by
  obtain ⟨it, hit⟩ : ∃ it, m.heap[a]? = some it := ⟨m.heap[a], List.getElem?_eq_getElem ha⟩
  have he : (modifyItem a g m).heap = m.heap.set a (g it) := by simp [modifyItem, hit]
  have hr : (modifyItem a g m).menuItems = m.menuItems := by simp [modifyItem, hit]
  refine ⟨?_, ParentsOlder_set m _ hpo a it (g it) hit (hpar it) he⟩
  intro id b hl
  rw [hr] at hl
  obtain ⟨x, hx, hxid⟩ := hwf id b hl
  rw [he, List.getElem?_set]
  by_cases hj : a = b
  · subst hj
    rw [hit] at hx
    have hx' : it = x := Option.some.inj hx
    subst hx'
    exact ⟨g it, by simp [ha], (hid it).trans hxid⟩
  · exact ⟨x, by simp [hj, hx], hxid⟩

/-- A step that writes to the layout only keeps the registry well formed and the
parents older. -/
theorem inv_layout (m m' : Menu L) (hwf : m.WF) (hpo : m.ParentsOlder)
    (he : m'.heap = m.heap) (hr : m'.menuItems = m.menuItems) :
    m'.WF ∧ m'.ParentsOlder := by
  refine ⟨?_, ParentsOlder_of_heap_eq m m' hpo he⟩
  intro id a hl
  rw [hr] at hl
  rw [he]
  exact hwf id a hl

/-- A method called on an allocated item keeps the registry well formed and the
parents older. -/
theorem inv_method (mu : Mutation) (a : Nat) (m : Menu L) (hwf : m.WF)
    (hpo : m.ParentsOlder) (ha : a < m.heap.length) :
    (mu.run P a m).WF ∧ (mu.run P a m).ParentsOlder := by
  cases mu with
  | setTitle t =>
    exact inv_update_modifyItem P a (fun i => { i with title := t })
      (fun _ => rfl) (fun _ => rfl) m hwf hpo ha
  | setTooltip t =>
    exact inv_update_modifyItem P a (fun i => { i with tooltip := t })
      (fun _ => rfl) (fun _ => rfl) m hwf hpo ha
  | enable =>
    exact inv_update_modifyItem P a (fun i => { i with disabled := false })
      (fun _ => rfl) (fun _ => rfl) m hwf hpo ha
  | disable =>
    exact inv_update_modifyItem P a (fun i => { i with disabled := true })
      (fun _ => rfl) (fun _ => rfl) m hwf hpo ha
  | hideItem => exact inv_layout m _ hwf hpo rfl rfl
  | showItem => exact inv_layout m _ hwf hpo rfl rfl
  | check =>
    exact inv_update_modifyItem P a (fun i => { i with checked := true })
      (fun _ => rfl) (fun _ => rfl) m hwf hpo ha
  | uncheck =>
    exact inv_update_modifyItem P a (fun i => { i with checked := false })
      (fun _ => rfl) (fun _ => rfl) m hwf hpo ha
  | setIcon b => exact inv_layout m _ hwf hpo rfl rfl
  | click fn =>
    exact inv_modifyItem a (fun i => { i with click := fn })
      (fun _ => rfl) (fun _ => rfl) m hwf hpo ha

/-- A function that looks an id up and calls a method on the item found keeps the
registry well formed and the parents older. -/
theorem inv_byID (mu : Mutation) (id : Nat) (m : Menu L) (hwf : m.WF) (hpo : m.ParentsOlder) :
    (match getMenuItem m id with
      | some item => mu.run P item m
      | none => m).WF ∧
    (match getMenuItem m id with
      | some item => mu.run P item m
      | none => m).ParentsOlder := by
  unfold getMenuItem
  cases hl : lookup m.menuItems id with
  | none => exact ⟨hwf, hpo⟩
  | some a =>
    obtain ⟨it, hit, _⟩ := hwf id a hl
    exact inv_method P mu a m hwf hpo (live_of_getElem? hit)

/-- Every operation keeps the registry well formed and the parents older. -/
theorem inv_step (st : Step) (m : Menu L) (hwf : m.WF) (hpo : m.ParentsOlder)
    (hlive : st.receiverLive m = true) :
    (st.run P m).WF ∧ (st.run P m).ParentsOlder := by
  cases st with
  | create op => exact inv_create P op m hwf hpo hlive
  | addSubMenuItemByID pid t tt =>
    cases hl : lookup m.menuItems pid with
    | none =>
      simp only [Step.run, AddSubMenuItemByID_missing P m pid t tt hl]
      exact ⟨hwf, hpo⟩
    | some p =>
      obtain ⟨it, hit, _⟩ := hwf pid p hl
      have e : (Step.addSubMenuItemByID pid t tt).run P m
          = (AddOp.addSubMenuItem p t tt).run P m := by
        simp [Step.run, AddSubMenuItemByID, getMenuItem, hl, AddOp.run]
      rw [e]
      exact inv_create P _ m hwf hpo (by simpa [Step.receiverLive] using live_of_getElem? hit)
  | addSubMenuItemCheckboxByID pid t tt c =>
    cases hl : lookup m.menuItems pid with
    | none =>
      have e : (Step.addSubMenuItemCheckboxByID pid t tt c).run P m = m := by
        simp [Step.run, AddSubMenuItemCheckboxByID, getMenuItem, hl]
      rw [e]
      exact ⟨hwf, hpo⟩
    | some p =>
      obtain ⟨it, hit, _⟩ := hwf pid p hl
      have e : (Step.addSubMenuItemCheckboxByID pid t tt c).run P m
          = (AddOp.addSubMenuItemCheckbox p t tt c).run P m := by
        simp [Step.run, AddSubMenuItemCheckboxByID, getMenuItem, hl, AddOp.run]
      rw [e]
      exact inv_create P _ m hwf hpo (by simpa [Step.receiverLive] using live_of_getElem? hit)
  | method item mu =>
    exact inv_method P mu item m hwf hpo (by simpa [Step.receiverLive] using hlive)
  | setMenuItemTitleByID id t =>
    have e : (Step.setMenuItemTitleByID id t).run P m
        = (match getMenuItem m id with
            | some item => (Mutation.setTitle t).run P item m
            | none => m) := by
      simp only [Step.run, SetMenuItemTitleByID, Mutation.run]
      cases getMenuItem m id <;> rfl
    rw [e]
    exact inv_byID P _ id m hwf hpo
  | enableMenuItemByID id =>
    have e : (Step.enableMenuItemByID id).run P m
        = (match getMenuItem m id with
            | some item => Mutation.enable.run P item m
            | none => m) := by
      simp only [Step.run, EnableMenuItemByID, Mutation.run]
      cases getMenuItem m id <;> rfl
    rw [e]
    exact inv_byID P _ id m hwf hpo
  | disableMenuItemByID id =>
    have e : (Step.disableMenuItemByID id).run P m
        = (match getMenuItem m id with
            | some item => Mutation.disable.run P item m
            | none => m) := by
      simp only [Step.run, DisableMenuItemByID, Mutation.run]
      cases getMenuItem m id <;> rfl
    rw [e]
    exact inv_byID P _ id m hwf hpo
  | showMenuItemByID id =>
    have e : (Step.showMenuItemByID id).run P m
        = (match getMenuItem m id with
            | some item => Mutation.showItem.run P item m
            | none => m) := by
      simp only [Step.run, ShowMenuItemByID, Mutation.run]
      cases getMenuItem m id <;> rfl
    rw [e]
    exact inv_byID P _ id m hwf hpo
  | hideMenuItemByID id =>
    have e : (Step.hideMenuItemByID id).run P m
        = (match getMenuItem m id with
            | some item => Mutation.hideItem.run P item m
            | none => m) := by
      simp only [Step.run, HideMenuItemByID, Mutation.run]
      cases getMenuItem m id <;> rfl
    rw [e]
    exact inv_byID P _ id m hwf hpo
  | checkMenuItemByID id =>
    have e : (Step.checkMenuItemByID id).run P m
        = (match getMenuItem m id with
            | some item => Mutation.check.run P item m
            | none => m) := by
      simp only [Step.run, CheckMenuItemByID, Mutation.run]
      cases getMenuItem m id <;> rfl
    rw [e]
    exact inv_byID P _ id m hwf hpo
  | uncheckMenuItemByID id =>
    have e : (Step.uncheckMenuItemByID id).run P m
        = (match getMenuItem m id with
            | some item => Mutation.uncheck.run P item m
            | none => m) := by
      simp only [Step.run, UncheckMenuItemByID, Mutation.run]
      cases getMenuItem m id <;> rfl
    rw [e]
    exact inv_byID P _ id m hwf hpo
  | setMenuItemIconByID id b =>
    have e : (Step.setMenuItemIconByID id b).run P m
        = (match getMenuItem m id with
            | some item => (Mutation.setIcon b).run P item m
            | none => m) := by
      simp only [Step.run, SetMenuItemIconByID, Mutation.run]
      cases getMenuItem m id <;> rfl
    rw [e]
    exact inv_byID P _ id m hwf hpo
  | resetMenu => exact inv_layout m _ hwf hpo rfl rfl

/-- In every reachable state the registry is well formed and the parents are older. -/
theorem inv_reachable (m : Menu L) (hm : Reachable P m) : m.WF ∧ m.ParentsOlder := by
  induction hm with
  | init l =>
    refine ⟨WF_init l, ?_⟩
    intro a item ha
    simp [Menu.init] at ha
  | step st _ hlive ih => exact inv_step P st _ ih.1 ih.2 hlive

end Forest

/-- Following the parent links from an allocated item reaches, in at most as many
steps as the address of the item, an item without parent. -/
theorem climb_reaches_root (heap : List MenuItem)
    (hpo : ∀ (a : Nat) (item : MenuItem), heap[a]? = some item →
      ∀ p, item.parent = some p → p < a) :
    ∀ (a : Nat) (item : MenuItem), heap[a]? = some item →
      ∃ k root rootItem, k ≤ a ∧ climb heap k a = some root ∧
        heap[root]? = some rootItem ∧ rootItem.parent = none := by
  intro a
  induction a using Nat.strong_induction_on with
  | _ a ih =>
    intro item hitem
    cases hp : item.parent with
    | none => exact ⟨0, a, item, Nat.zero_le _, rfl, hitem, hp⟩
    | some p =>
      have hlt : p < a := hpo a item hitem p hp
      have hlive : p < heap.length := Nat.lt_trans hlt (live_of_getElem? hitem)
      obtain ⟨k, root, rootItem, hk, hc, hr, hn⟩ :=
        ih p hlt heap[p] (List.getElem?_eq_getElem hlive)
      refine ⟨k + 1, root, rootItem, by omega, ?_, hr, hn⟩
      simp [climb, hitem, hp, hc]

/-- C19: in every state reachable from the state at program start by the
item-creating and item-mutating operations, every registered item is allocated and
has either no parent (root level) or one parent, an item allocated, that was
created before it (at a smaller address), and following the parent links from it
reaches a root-level item in finitely many steps (at most its address): the
parent/child relation has no cycle. The same holds of every allocated item. -/
theorem C19_parent_forest {L : Type} (P : Platform L) (m : Menu L) (hm : Reachable P m) :
    (∀ id a, lookup m.menuItems id = some a →
      ∃ item, m.heap[a]? = some item ∧
        (item.parent = none ∨
          ∃ p parent, item.parent = some p ∧ p < a ∧ m.heap[p]? = some parent) ∧
        ∃ k root rootItem, k ≤ a ∧ climb m.heap k a = some root ∧
          m.heap[root]? = some rootItem ∧ rootItem.parent = none) ∧
    (∀ a item, m.heap[a]? = some item →
      (item.parent = none ∨
        ∃ p parent, item.parent = some p ∧ p < a ∧ m.heap[p]? = some parent) ∧
      ∃ k root rootItem, k ≤ a ∧ climb m.heap k a = some root ∧
        m.heap[root]? = some rootItem ∧ rootItem.parent = none) := by
  obtain ⟨hwf, hpo⟩ := inv_reachable P m hm
  have hall : ∀ a item, m.heap[a]? = some item →
      (item.parent = none ∨
        ∃ p parent, item.parent = some p ∧ p < a ∧ m.heap[p]? = some parent) ∧
      ∃ k root rootItem, k ≤ a ∧ climb m.heap k a = some root ∧
        m.heap[root]? = some rootItem ∧ rootItem.parent = none := by
    intro a item hitem
    refine ⟨?_, climb_reaches_root m.heap hpo a item hitem⟩
    cases hp : item.parent with
    | none => exact Or.inl rfl
    | some p =>
      have hlt : p < a := hpo a item hitem p hp
      have hlive : p < m.heap.length := Nat.lt_trans hlt (live_of_getElem? hitem)
      exact Or.inr ⟨p, m.heap[p], rfl, hlt, List.getElem?_eq_getElem hlive⟩
  refine ⟨?_, hall⟩
  intro id a hl
  obtain ⟨item, hitem, _⟩ := hwf id a hl
  exact ⟨item, hitem, hall a item hitem⟩

/-- C19, witness: the state after `AddMenuItem("One", "")`,
`AddSubMenuItemByID(1, "Sub", "")` and `DisableMenuItemByID(2)`; the item with id 2 is
at address 1 and its parent is the item at address 0, which has no parent. -/
theorem C19_parent_forest_witness :
    lookup (Step.run logPlatform (Step.disableMenuItemByID 2)
      (Step.run logPlatform (Step.addSubMenuItemByID 1 "Sub" "")
        (Step.run logPlatform (Step.create (AddOp.addMenuItem "One" ""))
          (Menu.init [])))).menuItems 2 = some 1 ∧
    climb (Step.run logPlatform (Step.disableMenuItemByID 2)
      (Step.run logPlatform (Step.addSubMenuItemByID 1 "Sub" "")
        (Step.run logPlatform (Step.create (AddOp.addMenuItem "One" ""))
          (Menu.init [])))).heap 1 1 = some 0 ∧
    ∃ item, (Step.run logPlatform (Step.disableMenuItemByID 2)
      (Step.run logPlatform (Step.addSubMenuItemByID 1 "Sub" "")
        (Step.run logPlatform (Step.create (AddOp.addMenuItem "One" ""))
          (Menu.init [])))).heap[1]? = some item ∧
      (item.parent = none ∨
        ∃ p parent, item.parent = some p ∧ p < 1 ∧
          (Step.run logPlatform (Step.disableMenuItemByID 2)
            (Step.run logPlatform (Step.addSubMenuItemByID 1 "Sub" "")
              (Step.run logPlatform (Step.create (AddOp.addMenuItem "One" ""))
                (Menu.init [])))).heap[p]? = some parent) ∧
      ∃ k root rootItem, k ≤ 1 ∧
        climb (Step.run logPlatform (Step.disableMenuItemByID 2)
          (Step.run logPlatform (Step.addSubMenuItemByID 1 "Sub" "")
            (Step.run logPlatform (Step.create (AddOp.addMenuItem "One" ""))
              (Menu.init [])))).heap k 1 = some root ∧
        (Step.run logPlatform (Step.disableMenuItemByID 2)
          (Step.run logPlatform (Step.addSubMenuItemByID 1 "Sub" "")
            (Step.run logPlatform (Step.create (AddOp.addMenuItem "One" ""))
              (Menu.init [])))).heap[root]? = some rootItem ∧
        rootItem.parent = none :=
  ⟨by decide, by decide,
   (C19_parent_forest logPlatform _
      (Reachable.step (Step.disableMenuItemByID 2)
        (Reachable.step (Step.addSubMenuItemByID 1 "Sub" "")
          (Reachable.step (Step.create (AddOp.addMenuItem "One" ""))
            (Reachable.init []) rfl) rfl) rfl)).1 2 1 (by decide)⟩

/-! ## Start and end of the tray -/

section LifeLemmas

variable {L Img : Type} (C : Codec Img) (S : Session)

/-- What `nativeStart` does begins with the ready signal, when `systrayReady` is set,
and goes on with the connection to the session bus; the ready signal does not occur
again, and `systrayReady` is `nil` afterwards. -/
theorem nativeStart_events (s : Life L) :
    (nativeStart C S s).state.systrayReady = none ∧
    ∃ rest, (∀ e ∈ rest, e.isReady = false) ∧
      (nativeStart C S s).events =
        (match s.systrayReady with
          | some onReady => [Ev.closeReadyCh onReady]
          | none => []) ++ Ev.bus BusCall.connectSessionBus :: rest := by
  unfold nativeStart
  cases s.systrayReady <;> simp only [] <;> repeat' split
  all_goals
    refine ⟨rfl, _, ?_, rfl⟩
    simp [Ev.isReady]

/-- Once `systrayReady` is `nil`, no call of `nativeStart` gives the ready signal. -/
theorem startMany_no_ready (sessions : List Session) (s : Life L)
    (h : s.systrayReady = none) :
    (startMany C sessions s).filter Ev.isReady = [] := by
  induction sessions generalizing s with
  | nil => rfl
  | cons S rest ih =>
    obtain ⟨hstate, tail, htail, hev⟩ := nativeStart_events C S s
    rw [h] at hev
    simp only [startMany, List.filter_append, ih _ hstate, List.append_nil, hev,
      List.nil_append]
    rw [List.filter_eq_nil_iff]
    intro e he
    rcases List.mem_cons.mp he with he | he
    · subst he; simp [Ev.isReady]
    · simp [htail e he]

/-- The second of two `nativeEnd` calls: it does not panic, leaves the tray state as
the first call left it and makes no call into the D-Bus library; it runs the
function held in `systrayExit` once more. -/
theorem nativeEnd_second (s : Life L) (fn : ExitFn) (h : s.systrayExit = some fn) :
    (nativeEnd (nativeEnd s).state).panicked = false ∧
    (nativeEnd (nativeEnd s).state).state.world.tray = (nativeEnd s).state.world.tray ∧
    (∀ e ∈ (nativeEnd (nativeEnd s).state).events, e.isBus = false) ∧
    (nativeEnd (nativeEnd s).state).events
      = (runExitFn fn (nativeEnd s).state.world).2.map Ev.host := by
  have h1 : (nativeEnd s).state.systrayExit = some fn := by
    unfold nativeEnd
    rw [h]
    simp only []
    split <;> rfl
  have h2 : (nativeEnd s).state.world.tray.conn = none := by
    unfold nativeEnd
    rw [h]
    simp only []
    split <;> rfl
  have h3 : ∀ w : World L, (runExitFn fn w).1.tray = w.tray := by
    intro w
    cases fn <;> rfl
  have h4 : (nativeEnd s).state.world.tray =
      { (nativeEnd s).state.world.tray with
        conn := none, props := none, menuProps := none, iconData := [], title := "",
        tooltipTitle := "" } := by
    unfold nativeEnd
    rw [h]
    simp only []
    split <;> rfl
  generalize nativeEnd s = d1 at h1 h2 h4
  have hc : (runExitFn fn d1.state.world).1.tray.conn = none := by rw [h3]; exact h2
  have e : nativeEnd d1.state =
      { state :=
          { d1.state with
            world :=
              { (runExitFn fn d1.state.world).1 with
                tray :=
                  { (runExitFn fn d1.state.world).1.tray with
                    conn := none, props := none, menuProps := none, iconData := [],
                    title := "", tooltipTitle := "" } } },
        events := (runExitFn fn d1.state.world).2.map Ev.host,
        panicked := false } := by
    unfold nativeEnd
    rw [h1]
    simp only [hc, h1]
  rw [e]
  refine ⟨rfl, ?_, ?_, rfl⟩
  · simp only [h3]
    exact h4.symm
  · intro e he
    obtain ⟨c, _, rfl⟩ := List.mem_map.mp he
    rfl

end LifeLemmas

/-- The ready signal on the code, for every state and every session bus. When
`systrayReady` is set (as it is after `Register` with an `onReady`), closing `readyCh`
is the first thing `nativeStart` does and the connection to the session bus is the
second; when it is `nil` no signal is given; `systrayReady` is `nil` afterwards, and
over any number of `nativeStart` calls the signal is given at most once. -/
theorem ready_signal_first_and_once {L Img : Type} (C : Codec Img) (S : Session)
    (sessions : List Session) (s : Life L) :
    (∀ onReady onExit, (Register (some onReady) onExit s).systrayReady = some onReady) ∧
    (∀ onReady, s.systrayReady = some onReady →
      ∃ rest, (nativeStart C S s).events
          = Ev.closeReadyCh onReady :: Ev.bus BusCall.connectSessionBus :: rest ∧
        ∀ e ∈ rest, e.isReady = false) ∧
    (s.systrayReady = none → ∀ e ∈ (nativeStart C S s).events, e.isReady = false) ∧
    (nativeStart C S s).state.systrayReady = none ∧
    ((startMany C sessions s).filter Ev.isReady).length ≤ 1 := by
  obtain ⟨hstate, tail, htail, hev⟩ := nativeStart_events C S s
  refine ⟨fun _ _ => rfl, ?_, ?_, hstate, ?_⟩
  · intro onReady h
    rw [h] at hev
    exact ⟨tail, hev, htail⟩
  · intro h e he
    rw [h] at hev
    rw [hev] at he
    rcases List.mem_cons.mp he with he | he
    · subst he; rfl
    · exact htail e he
  · cases sessions with
    | nil => simp [startMany]
    | cons S' rest =>
      obtain ⟨hstate', tail', htail', hev'⟩ := nativeStart_events C S' s
      have hnone := startMany_no_ready C rest _ hstate'
      have htl : tail'.filter Ev.isReady = [] := by
        rw [List.filter_eq_nil_iff]
        intro e he
        simp [htail' e he]
      simp only [startMany, List.filter_append, hnone, List.append_nil, hev']
      cases s.systrayReady with
      | none => simp [List.filter_cons, Ev.isReady, htl]
      | some f => simp [List.filter_cons, Ev.isReady, htl]

/-- C17, the code at the failing input: `Register` with the `onReady` function 1,
then `nativeStart` on a session bus on which every call succeeds. Closing `readyCh`,
which releases the `onReady` worker, is the first thing `nativeStart` does, in a state
where `instance.conn`, `instance.props` and `instance.menuProps` are still `nil`; the
connection to the session bus, the exports, the name request, the property exports and
the registration with the watcher all come after the signal, and only at the end of
`nativeStart` are the connection and the property handles stored. -/
theorem C17_ready_before_setup :
    (Register (some (ReadyFn.host 1)) (some (ExitFn.host 2))
        (Life.init ([] : List String))).world.tray.conn = none ∧
    (Register (some (ReadyFn.host 1)) (some (ExitFn.host 2))
        (Life.init ([] : List String))).world.tray.props = none ∧
    (Register (some (ReadyFn.host 1)) (some (ExitFn.host 2))
        (Life.init ([] : List String))).world.tray.menuProps = none ∧
    (nativeStart blankCodec goodSession
      (Register (some (ReadyFn.host 1)) (some (ExitFn.host 2))
        (Life.init ([] : List String)))).events
      = [Ev.closeReadyCh (ReadyFn.host 1),
         Ev.bus BusCall.connectSessionBus,
         Ev.bus BusCall.exportStatusNotifierItem,
         Ev.bus BusCall.exportDbusmenu,
         Ev.bus (BusCall.requestName "org.kde.StatusNotifierItem-4242-1"),
         Ev.bus (BusCall.propExportItem
           { title := "", iconPixmap := [], menu := "/", toolTipTitle := "", toolTipIcons := [] }),
         Ev.bus BusCall.propExportMenu,
         Ev.bus (BusCall.exportIntrospectable "/StatusNotifierItem"),
         Ev.bus (BusCall.exportIntrospectable "/StatusNotifierMenu"),
         Ev.bus BusCall.registerStatusNotifierItem] ∧
    (nativeStart blankCodec goodSession
      (Register (some (ReadyFn.host 1)) (some (ExitFn.host 2))
        (Life.init ([] : List String)))).state.world.tray.conn = some 1 := by
  decide

/-- C16, the code at the failing input: `Register` with the `onExit` function 2,
`nativeStart` on a session bus on which every call succeeds, then `nativeEnd` twice.
The first `nativeEnd` calls the function 2 and takes the tray off the bus; the second
`nativeEnd` calls the function 2 again. -/
theorem C16_second_nativeEnd_calls_exit :
    (nativeEnd (nativeStart blankCodec goodSession
      (Register (some (ReadyFn.host 1)) (some (ExitFn.host 2))
        (Life.init ([] : List String)))).state).events
      = [Ev.host (HostCall.goFunc 2),
         Ev.bus BusCall.setMustStatusPassive,
         Ev.bus BusCall.unexportStatusNotifierItem,
         Ev.bus BusCall.unexportDbusmenu,
         Ev.bus (BusCall.exportNil "/StatusNotifierItem" "org.freedesktop.DBus.Properties"),
         Ev.bus (BusCall.exportNil "/StatusNotifierMenu" "org.freedesktop.DBus.Properties"),
         Ev.bus (BusCall.exportNil "/StatusNotifierItem" "org.freedesktop.DBus.Introspectable"),
         Ev.bus (BusCall.exportNil "/StatusNotifierMenu" "org.freedesktop.DBus.Introspectable"),
         Ev.bus (BusCall.releaseName "org.kde.StatusNotifierItem-4242-1"),
         Ev.bus BusCall.connClose] ∧
    (nativeEnd (nativeEnd (nativeStart blankCodec goodSession
      (Register (some (ReadyFn.host 1)) (some (ExitFn.host 2))
        (Life.init ([] : List String)))).state).state).events
      = [Ev.host (HostCall.goFunc 2)] := by
  decide

/-- C18, the code at the failing input: `Systray_PrepareExternalLoop` and then
`Systray_NativeStart` when there is no session bus to connect to. The call on the
`nil` connection panics in `nativeStart`, and `Systray_NativeStart`, which has no
deferred `recover()`, ends in that panic. -/
theorem C18_NativeStart_panics :
    (Systray_PrepareExternalLoop (Life.init ([] : List String))).state.startFn = true ∧
    (Systray_NativeStart blankCodec noBusSession
      (Systray_PrepareExternalLoop (Life.init ([] : List String))).state).panicked = true ∧
    (Systray_NativeStart blankCodec noBusSession
      (Systray_PrepareExternalLoop (Life.init ([] : List String))).state).events
      = [Ev.closeReadyCh ReadyFn.bridgeReady, Ev.bus BusCall.connectSessionBus] ∧
    (Systray_Run blankCodec noBusSession (fun s => s)
      (Life.init ([] : List String))).panicked = true := by
  decide

/-- Whenever there is no session bus, the panic of `nativeStart` goes through
`Systray_NativeStart` and `Systray_Run` to the host. -/
theorem entry_points_propagate_panic {L Img : Type} (C : Codec Img) (S : Session)
    (during : Life L → Life L) (s : Life L) (hbus : S.connect = none) :
    (nativeStart C S s).panicked = true ∧
    (s.startFn = true → (Systray_NativeStart C S s).panicked = true) ∧
    (Systray_Run C S during s).panicked = true := by
  have h : ∀ s' : Life L, (nativeStart C S s').panicked = true := by
    intro s'
    unfold nativeStart
    simp [hbus]
  refine ⟨h s, ?_, ?_⟩
  · intro hs
    simp [Systray_NativeStart, hs, h]
  · simp [Systray_Run, Done.andThen, h]

end Systray
